import Mathlib

/-!
# Form validation (`src/main.js`)

A shallow embedding of the form validator of `src/main.js`: the message surface
(`showError`, `showSucessMessage`, `clearError`), the three submit-time validators
(`handleTextField`, `handleEmailField`, `handlePasswordField`), the submit handler
(`processDataInput`) and the three live input handlers.

JavaScript strings are modelled as lists of characters (`String` in the DOM record,
`List Char` once a handler has read and trimmed a value); a string holding an unpaired
surrogate has no counterpart here.  `String.prototype.length` counts UTF-16 code units,
which `jsLength` reproduces.  The regular expressions of the source are written as
terms of a small regular-expression syntax `Re` and run by a derivative matcher, which
is proved to decide the language `Re.Matches`; for the anchored expressions of the
source, `value.match(regex)` is non-null exactly when the value is in that language.
-/

namespace FormValidation

/-! ## JavaScript string primitives -/

/-- Number of UTF-16 code units a character occupies in a JavaScript string. -/
def utf16Units (c : Char) : Nat :=
  if c.toNat < 0x10000 then 1 else 2

/-- The value of `String.prototype.length`: the number of UTF-16 code units. -/
def jsLength (s : List Char) : Nat :=
  (s.map utf16Units).sum

/-- The characters removed by `String.prototype.trim`: ECMAScript `WhiteSpace`
(TAB, VT, FF, SP, NBSP, ZWNBSP and the Unicode category Zs) and `LineTerminator`
(LF, CR, LS, PS). -/
def isTrimChar (c : Char) : Bool :=
  let n := c.toNat
  n == 0x09 || n == 0x0A || n == 0x0B || n == 0x0C || n == 0x0D || n == 0x20 ||
  n == 0xA0 || n == 0x1680 || (0x2000 ≤ n && n ≤ 0x200A) ||
  n == 0x2028 || n == 0x2029 || n == 0x202F || n == 0x205F || n == 0x3000 || n == 0xFEFF

/-- The function `String.prototype.trim`: strip leading and trailing white space. -/
def trim (s : List Char) : List Char :=
  ((s.dropWhile isTrimChar).reverse.dropWhile isTrimChar).reverse

/-! ## Character classes of the regular expressions in `main.js` -/

/-- The class `[a-z]`. -/
def isLower (c : Char) : Bool := 'a'.toNat ≤ c.toNat && c.toNat ≤ 'z'.toNat

/-- The class `[A-Z]`. -/
def isUpper (c : Char) : Bool := 'A'.toNat ≤ c.toNat && c.toNat ≤ 'Z'.toNat

/-- The class `\d`, which is `[0-9]` in JavaScript. -/
def isDigit (c : Char) : Bool := '0'.toNat ≤ c.toNat && c.toNat ≤ '9'.toNat

/-- The class `[a-zA-Z]`. -/
def isLetter (c : Char) : Bool := isLower c || isUpper c

/-- The class `[a-zA-Z0-9]`. -/
def isAlnum (c : Char) : Bool := isLower c || isUpper c || isDigit c

/-- The class `[a-zA-Z ]`, whose complement is the name regex `/[^a-zA-Z ]/g`. -/
def isNameChar (c : Char) : Bool := isLower c || isUpper c || c == ' '

/-- The class `[._%+-]` (the trailing `-` is a literal). -/
def isLocalSep (c : Char) : Bool :=
  c == '.' || c == '_' || c == '%' || c == '+' || c == '-'

/-- The class `[a-zA-Z0-9.-]`. -/
def isDomainChar (c : Char) : Bool := isLower c || isUpper c || isDigit c || c == '.' || c == '-'

/-- The class `[@$!%*?&]`. -/
def isSpecial (c : Char) : Bool :=
  c == '@' || c == '$' || c == '!' || c == '%' || c == '*' || c == '?' || c == '&'

/-- The class `[A-Za-z\d@$!%*?&]`. -/
def isPasswordChar (c : Char) : Bool := isUpper c || isLower c || isDigit c || isSpecial c

/-- The atom `.` without the `s` flag: any character except a line terminator
(LF, CR, LS, PS). -/
def isDot (c : Char) : Bool :=
  !(c.toNat == 0x0A || c.toNat == 0x0D || c.toNat == 0x2028 || c.toNat == 0x2029)

/-! ## Regular expressions -/

/-- Syntax of the regular expressions used by `main.js`. -/
inductive Re where
  | fail : Re
  | eps : Re
  | cls : (Char → Bool) → Re
  | seq : Re → Re → Re
  | alt : Re → Re → Re
  | star : Re → Re

namespace Re

/-- The quantifier `r+`. -/
def plus (r : Re) : Re := seq r (star r)

/-- The quantifier `r?`. -/
def opt (r : Re) : Re := alt r eps

/-- The quantifier `r{n,}`. -/
def atLeast : Nat → Re → Re
  | 0, r => star r
  | n + 1, r => seq r (atLeast n r)

/-- Whether the expression matches the empty string. -/
def nullable : Re → Bool
  | fail => false
  | eps => true
  | cls _ => false
  | seq a b => nullable a && nullable b
  | alt a b => nullable a || nullable b
  | star _ => true

/-- Brzozowski derivative: what remains to be matched after reading `c`. -/
def deriv : Re → Char → Re
  | fail, _ => fail
  | eps, _ => fail
  | cls p, c => if p c then eps else fail
  | seq a b, c => if nullable a then alt (seq (deriv a c) b) (deriv b c) else seq (deriv a c) b
  | alt a b, c => alt (deriv a c) (deriv b c)
  | star a, c => seq (deriv a c) (star a)

/-- Whether the whole of `s` is matched by `r` (a regex anchored by `^` and `$`). -/
def fullMatch (r : Re) : List Char → Bool
  | [] => nullable r
  | c :: s => fullMatch (deriv r c) s

/-- Whether some prefix of `s` is matched by `r`: a lookahead `(?=r)` at the start. -/
def lookaheadMatch (r : Re) : List Char → Bool
  | [] => nullable r
  | c :: s => nullable r || lookaheadMatch (deriv r c) s

end Re

/-- The email regex
`/^[a-zA-Z0-9]+([._%+-]?[a-zA-Z0-9]+)*@[a-zA-Z0-9.-]+\.[a-zA-Z]{2,}$/i`.
Without the `u` flag the `i` flag never lets a non-ASCII character match an ASCII
letter, and the classes already hold both cases, so `i` changes nothing. -/
def emailRegex : Re :=
  .seq (.plus (.cls isAlnum))
    (.seq (.star (.seq (.opt (.cls isLocalSep)) (.plus (.cls isAlnum))))
      (.seq (.cls (· == '@'))
        (.seq (.plus (.cls isDomainChar))
          (.seq (.cls (· == '.')) (.atLeast 2 (.cls isLetter))))))

/-- The body `[A-Za-z\d@$!%*?&]{8,}` of the password regex. -/
def passwordBody : Re := .atLeast 8 (.cls isPasswordChar)

/-- The lookahead body `.*[cls]`. -/
def lookaheadFor (p : Char → Bool) : Re := .seq (.star (.cls isDot)) (.cls p)

/-- The password regex
`/^(?=.*[a-z])(?=.*[A-Z])(?=.*\d)(?=.*[@$!%*?&])[A-Za-z\d@$!%*?&]{8,}$/`:
four lookaheads at the start of the input, then the body up to the end. -/
def passwordRegexMatch (s : List Char) : Bool :=
  (lookaheadFor isLower).lookaheadMatch s && (lookaheadFor isUpper).lookaheadMatch s &&
  (lookaheadFor isDigit).lookaheadMatch s && (lookaheadFor isSpecial).lookaheadMatch s &&
  passwordBody.fullMatch s

/-- The name regex `/[^a-zA-Z ]/g` used with `match`: the result is non-null exactly
when some character is outside `[a-zA-Z ]`. -/
def nameRegexMatch (s : List Char) : Bool :=
  s.any (fun c => !isNameChar c)

/-! ## The DOM state touched by `main.js` -/

/-- An `<input>` element: its `value`, its `classList` and its `aria-invalid`
attribute (`none` while the attribute is absent). -/
structure InputEl where
  value : String
  classList : List String
  ariaInvalid : Option String
  deriving DecidableEq

/-- The message surface: the container `#message-error` (`message`) and its paragraph
(`messageContent`).  The field `contained` is the value of
`message.contains(messageContent)`, and `display` is `message.style.display`. -/
structure MessageSurface where
  textContent : String
  classList : List String
  contained : Bool
  display : String
  deriving DecidableEq

/-- The submit event; `preventDefault` sets `defaultPrevented`. -/
structure Event where
  defaultPrevented : Bool
  deriving DecidableEq

/-- The part of the document reachable from the element handles of `main.js`. -/
structure Dom where
  nameInput : InputEl
  emailInput : InputEl
  passwordInput : InputEl
  message : MessageSurface
  deriving DecidableEq

/-- One token added by `classList.add`: appended unless already present. -/
def classAdd (cl : List String) (t : String) : List String :=
  if t ∈ cl then cl else cl ++ [t]

/-- One token removed by `classList.remove`. -/
def classRemove (cl : List String) (t : String) : List String :=
  cl.filter (fun x => x ≠ t)

/-- The call `el.setAttribute('aria-invalid', v)`. -/
def setAriaInvalid (el : InputEl) (v : String) : InputEl :=
  { el with ariaInvalid := some v }

/-! ## Message surface -/

/-- The function `showError` (lines 15-22). -/
def showError (msg : String) (m : MessageSurface) : MessageSurface :=
  let m := { m with textContent := msg }
  let m := if !m.contained then
      { m with classList := classAdd m.classList "text-red-500", contained := true }
    else m
  { m with display := "block" }

/-- The function `showSucessMessage` (lines 29-36). -/
def showSucessMessage (msg : String) (m : MessageSurface) : MessageSurface :=
  let m := { m with textContent := msg }
  let m := if !m.contained then
      { m with classList := classRemove m.classList "text-red-500", contained := true }
    else m
  { m with display := "block" }

/-- The function `clearError` (lines 46-52). -/
def clearError (m : MessageSurface) : MessageSurface :=
  let m := { m with textContent := "" }
  let m := if m.contained then { m with contained := false } else m
  { m with display := "none" }

/-! ## Submit-time validators -/

/-- The function `handleTextField` (lines 62-84): the new document and the returned
boolean. -/
def handleTextField (d : Dom) : Dom × Bool :=
  let value := trim d.nameInput.value.toList
  if value = [] then
    ({ d with message := showError "Please enter your name to continue." d.message,
              nameInput := setAriaInvalid d.nameInput "true" }, false)
  else if jsLength value < 3 || jsLength value > 50 then
    ({ d with message := showError "Name must be at least 3 characters." d.message,
              nameInput := setAriaInvalid d.nameInput "true" }, false)
  else if nameRegexMatch value then
    ({ d with message := showError "Name cannot contain numbers or special characters." d.message,
              nameInput := setAriaInvalid d.nameInput "true" }, false)
  else
    ({ d with nameInput := setAriaInvalid d.nameInput "false",
              message := clearError d.message }, true)

/-- The function `handleEmailField` (lines 93-110). -/
def handleEmailField (d : Dom) : Dom × Bool :=
  let value := trim d.emailInput.value.toList
  if value = [] then
    ({ d with message := showError "Email input cannot be empty." d.message,
              emailInput := setAriaInvalid d.emailInput "true" }, false)
  else if !emailRegex.fullMatch value then
    ({ d with message := showError "Please check your email." d.message,
              emailInput := setAriaInvalid d.emailInput "true" }, false)
  else
    ({ d with emailInput := setAriaInvalid d.emailInput "false",
              message := clearError d.message }, true)

/-- The function `handlePasswordField` (lines 126-143). -/
def handlePasswordField (d : Dom) : Dom × Bool :=
  let value := trim d.passwordInput.value.toList
  if value = [] then
    ({ d with message := showError "Please fill out the password field" d.message,
              passwordInput := setAriaInvalid d.passwordInput "true" }, false)
  else if !passwordRegexMatch value then
    ({ d with message := showError
                "Password must be at least 8 characters, include uppercase, lowercase, number, and special character."
                d.message,
              passwordInput := setAriaInvalid d.passwordInput "true" }, false)
  else
    ({ d with passwordInput := setAriaInvalid d.passwordInput "false",
              message := clearError d.message }, true)

/-! ## Submit handler -/

/-- The function `processDataInput` (lines 154-166): the event after `preventDefault`
and the new document. -/
def processDataInput (e : Event) (d : Dom) : Event × Dom :=
  let e := { e with defaultPrevented := true }
  let (d, ok) := handleTextField d
  if !ok then (e, d) else
  let (d, ok) := handleEmailField d
  if !ok then (e, d) else
  let (d, ok) := handlePasswordField d
  if !ok then (e, d) else
  let d := { d with nameInput := { d.nameInput with value := "" } }
  let d := { d with emailInput := { d.emailInput with value := "" } }
  let d := { d with passwordInput := { d.passwordInput with value := "" } }
  let d := { d with message := clearError d.message }
  (e, { d with message := showSucessMessage "Form has successfully been sent." d.message })

/-! ## Live input handlers -/

/-- The invalid branch shared by the input handlers:
`classList.remove('border', 'border-gray-400')`, `classList.add('border', 'border-red-500')`,
`setAttribute('aria-invalid', 'true')`. -/
def markInvalid (el : InputEl) : InputEl :=
  let cl := classRemove (classRemove el.classList "border") "border-gray-400"
  let cl := classAdd (classAdd cl "border") "border-red-500"
  setAriaInvalid { el with classList := cl } "true"

/-- The valid branch shared by the input handlers:
`classList.remove('border', 'border-red-500')`, `classList.add('border', 'border-gray-400')`,
`setAttribute('aria-invalid', 'false')`. -/
def markValid (el : InputEl) : InputEl :=
  let cl := classRemove (classRemove el.classList "border") "border-red-500"
  let cl := classAdd (classAdd cl "border") "border-gray-400"
  setAriaInvalid { el with classList := cl } "false"

/-- The function `checkNameInput` (lines 180-204). -/
def checkNameInput (d : Dom) : Dom :=
  let value := trim d.nameInput.value.toList
  if value = [] then { d with nameInput := markInvalid d.nameInput }
  else if jsLength value < 3 || jsLength value > 50 then
    { d with nameInput := markInvalid d.nameInput }
  else if nameRegexMatch value then { d with nameInput := markInvalid d.nameInput }
  else { d with nameInput := markValid d.nameInput }

/-- The function `checkEmailInput` (lines 213-232). -/
def checkEmailInput (d : Dom) : Dom :=
  let value := trim d.emailInput.value.toList
  if value = [] then { d with emailInput := markInvalid d.emailInput }
  else if !emailRegex.fullMatch value then { d with emailInput := markInvalid d.emailInput }
  else { d with emailInput := markValid d.emailInput }

/-- The function `checkPasswordInput` (lines 238-257). -/
def checkPasswordInput (d : Dom) : Dom :=
  let value := trim d.passwordInput.value.toList
  if value = [] then { d with passwordInput := markInvalid d.passwordInput }
  else if !passwordRegexMatch value then { d with passwordInput := markInvalid d.passwordInput }
  else { d with passwordInput := markValid d.passwordInput }

/-- A document with the three given field values, no classes or attributes on the
fields, and the given message surface. -/
def domOf (name email password : String) (m : MessageSurface) : Dom :=
  { nameInput := { value := name, classList := [], ariaInvalid := none }
    emailInput := { value := email, classList := [], ariaInvalid := none }
    passwordInput := { value := password, classList := [], ariaInvalid := none }
    message := m }

/-- The short-circuit example: empty name, malformed email, weak password, with an
`aria-invalid` flag already on the email field and a success message on display. -/
def shortCircuitDom : Dom :=
  { nameInput := { value := "", classList := [], ariaInvalid := none }
    emailInput := { value := "not-an-email", classList := [], ariaInvalid := some "false" }
    passwordInput := { value := "weak", classList := [], ariaInvalid := none }
    message := { textContent := "Form has successfully been sent.", classList := [],
                 contained := true, display := "block" } }

/-- A message surface as a page would start: paragraph attached, error class set,
container hidden. -/
def initialMessage : MessageSurface :=
  { textContent := "", classList := ["text-red-500"], contained := true, display := "none" }

/-! ## Vocabulary of the statements -/

/-- A string that ends in a dotted suffix: a `.` followed by two or more letters
`[a-zA-Z]`, up to the end. -/
def EndsWithDottedSuffix (s : List Char) : Prop :=
  ∃ pre tld, s = pre ++ '.' :: tld ∧ 2 ≤ tld.length ∧ ∀ c ∈ tld, isLetter c = true

/-- What a document looks like after a validator rejected with message `msg`. -/
def Rejected (msg : String) (d r : Dom) : Prop :=
  r.message.textContent = msg ∧ r.message.contained = true ∧ r.message.display = "block"
    ∧ r.nameInput.value = d.nameInput.value ∧ r.emailInput.value = d.emailInput.value
    ∧ r.passwordInput.value = d.passwordInput.value

/-- The document a successful submit leaves, given the document after the three
validators. -/
def submitSuccess (d : Dom) : Dom :=
  { nameInput := { d.nameInput with value := "" }
    emailInput := { d.emailInput with value := "" }
    passwordInput := { d.passwordInput with value := "" }
    message := showSucessMessage "Form has successfully been sent." (clearError d.message) }

/-- The user replaces the password value (the field is edited, nothing else changes). -/
def setPasswordValue (d : Dom) (p : String) : Dom :=
  { d with passwordInput := { d.passwordInput with value := p } }

/-- The message surface a successful submit leaves behind: the success text, the
paragraph attached, no error class, the container shown. -/
def afterSuccessMessage : MessageSurface :=
  { textContent := "Form has successfully been sent.", classList := [],
    contained := true, display := "block" }

/-- The message surface a rejected submit leaves behind from a detached paragraph: an
error text, the paragraph attached with the error class, the container shown. -/
def afterErrorMessage : MessageSurface :=
  { textContent := "Please check your email.", classList := ["text-red-500"],
    contained := true, display := "block" }

/-- The invalid style of a field: `border-red-500` present, `border-gray-400` absent. -/
def InvalidStyle (el : InputEl) : Prop :=
  "border-red-500" ∈ el.classList ∧ "border-gray-400" ∉ el.classList

/-- The neutral style of a field: `border-gray-400` present, `border-red-500` absent. -/
def NeutralStyle (el : InputEl) : Prop :=
  "border-gray-400" ∈ el.classList ∧ "border-red-500" ∉ el.classList

/-- The events the page listens to: an edit of one field (the value changes, then the
field's `input` listener runs) and a submit of the form. -/
inductive UiEvent where
  | inputName (v : String)
  | inputEmail (v : String)
  | inputPassword (v : String)
  | submit

/-- The document after one event: `addEventListener('input', check...)` for the edits,
`addEventListener('submit', processDataInput)` for the submit. -/
def step (d : Dom) : UiEvent → Dom
  | .inputName v => checkNameInput { d with nameInput := { d.nameInput with value := v } }
  | .inputEmail v => checkEmailInput { d with emailInput := { d.emailInput with value := v } }
  | .inputPassword v =>
      checkPasswordInput { d with passwordInput := { d.passwordInput with value := v } }
  | .submit => (processDataInput { defaultPrevented := false } d).2

/-- The document after a sequence of events. -/
def run (d : Dom) (evs : List UiEvent) : Dom :=
  evs.foldl step d

/-- Where a submit ends: at one of the three `return` statements of
`processDataInput`, or in its success branch. -/
inductive Outcome where
  | rejectedName
  | rejectedEmail
  | rejectedPassword
  | accepted
  deriving DecidableEq

/-- The control flow of `processDataInput` (lines 156-158): the first validator that
returns `false` ends the submit. -/
def submitOutcome (d : Dom) : Outcome :=
  let (d, ok) := handleTextField d
  if !ok then .rejectedName else
  let (d, ok) := handleEmailField d
  if !ok then .rejectedEmail else
  let (_, ok) := handlePasswordField d
  if !ok then .rejectedPassword else .accepted

/-- A session that fills the three fields with valid values, one edit each. -/
def validEdits : List UiEvent :=
  [.inputName "Jane Doe", .inputEmail "jane@example.com", .inputPassword "Str0ng!Pass"]

/-- A page before any event: empty fields without classes or attributes. -/
def emptyDom : Dom := domOf "" "" "" initialMessage

/-! ## Meaning of the regular expressions -/

namespace Re

/-- The language of a regular expression: `Matches r s` when `r` matches all of `s`. -/
inductive Matches : Re → List Char → Prop
  | eps : Matches eps []
  | cls {p : Char → Bool} {c : Char} : p c = true → Matches (cls p) [c]
  | seq {a b : Re} {s t : List Char} : Matches a s → Matches b t → Matches (seq a b) (s ++ t)
  | altL {a b : Re} {s : List Char} : Matches a s → Matches (alt a b) s
  | altR {a b : Re} {s : List Char} : Matches b s → Matches (alt a b) s
  | starNil {a : Re} : Matches (star a) []
  | starCons {a : Re} {s t : List Char} :
      Matches a s → Matches (star a) t → Matches (star a) (s ++ t)

theorem matches_nil_nullable {r : Re} {w : List Char} (h : Matches r w) :
    w = [] → nullable r = true := by
  induction h with
  | eps => intro _; rfl
  | cls _ => intro hw; cases hw
  | seq _ _ iha ihb =>
      intro hw
      obtain ⟨h1, h2⟩ := List.append_eq_nil.mp hw
      simp [nullable, iha h1, ihb h2]
  | altL _ ih => intro hw; simp [nullable, ih hw]
  | altR _ ih => intro hw; simp [nullable, ih hw]
  | starNil => intro _; rfl
  | starCons _ _ _ _ => intro _; rfl

theorem nullable_matches_nil : ∀ r : Re, nullable r = true → Matches r []
  | fail, h => by simp [nullable] at h
  | eps, _ => Matches.eps
  | cls _, h => by simp [nullable] at h
  | seq a b, h => by
      simp only [nullable, Bool.and_eq_true] at h
      exact Matches.seq (nullable_matches_nil a h.1) (nullable_matches_nil b h.2)
  | alt a b, h => by
      simp only [nullable, Bool.or_eq_true] at h
      rcases h with h | h
      · exact Matches.altL (nullable_matches_nil a h)
      · exact Matches.altR (nullable_matches_nil b h)
  | star _, _ => Matches.starNil

theorem nullable_iff (r : Re) : nullable r = true ↔ Matches r [] :=
  ⟨nullable_matches_nil r, fun h => matches_nil_nullable h rfl⟩

theorem matches_of_deriv : ∀ (r : Re) (c : Char) (s : List Char),
    Matches (deriv r c) s → Matches r (c :: s)
  | fail, _, _, h => by cases h
  | eps, _, _, h => by cases h
  | cls p, c, s, h => by
      by_cases hp : p c = true
      · simp only [deriv, hp, if_true] at h
        cases h
        exact Matches.cls hp
      · simp only [deriv, hp] at h
        cases h
  | seq a b, c, s, h => by
      by_cases hn : nullable a = true
      · simp only [deriv, hn, if_true] at h
        cases h with
        | altL h =>
            cases h with
            | seq h1 h2 => exact Matches.seq (matches_of_deriv a c _ h1) h2
        | altR h =>
            exact Matches.seq (nullable_matches_nil a hn) (matches_of_deriv b c _ h)
      · simp only [deriv, hn] at h
        cases h with
        | seq h1 h2 => exact Matches.seq (matches_of_deriv a c _ h1) h2
  | alt a b, c, s, h => by
      simp only [deriv] at h
      cases h with
      | altL h => exact Matches.altL (matches_of_deriv a c _ h)
      | altR h => exact Matches.altR (matches_of_deriv b c _ h)
  | star a, c, s, h => by
      simp only [deriv] at h
      cases h with
      | seq h1 h2 => exact Matches.starCons (matches_of_deriv a c _ h1) h2

theorem deriv_of_matches {r : Re} {w : List Char} (h : Matches r w) :
    ∀ (c : Char) (s : List Char), w = c :: s → Matches (deriv r c) s := by
  induction h with
  | eps => intro c s hw; cases hw
  | @cls p c0 hp =>
      intro c s hw
      cases hw
      simp only [deriv, hp, if_true]
      exact Matches.eps
  | @seq a b s1 s2 h1 h2 ih1 ih2 =>
      intro c s hw
      cases s1 with
      | nil =>
          have hn : nullable a = true := matches_nil_nullable h1 rfl
          simp only [deriv, hn, if_true]
          exact Matches.altR (ih2 c s hw)
      | cons x s1 =>
          simp only [List.cons_append, List.cons.injEq] at hw
          obtain ⟨rfl, rfl⟩ := hw
          have hd : Matches (seq (deriv a x) b) (s1 ++ s2) := Matches.seq (ih1 x s1 rfl) h2
          by_cases hn : nullable a = true
          · simp only [deriv, hn, if_true]
            exact Matches.altL hd
          · simp only [deriv, hn]
            exact hd
  | altL _ ih => intro c s hw; exact Matches.altL (ih c s hw)
  | altR _ ih => intro c s hw; exact Matches.altR (ih c s hw)
  | starNil => intro c s hw; cases hw
  | @starCons a s1 s2 h1 h2 ih1 ih2 =>
      intro c s hw
      cases s1 with
      | nil => exact ih2 c s hw
      | cons x s1 =>
          simp only [List.cons_append, List.cons.injEq] at hw
          obtain ⟨rfl, rfl⟩ := hw
          exact Matches.seq (ih1 x s1 rfl) h2

theorem deriv_iff (r : Re) (c : Char) (s : List Char) :
    Matches (deriv r c) s ↔ Matches r (c :: s) :=
  ⟨matches_of_deriv r c s, fun h => deriv_of_matches h c s rfl⟩

/-- The matcher decides the language. -/
theorem fullMatch_iff (r : Re) (s : List Char) : fullMatch r s = true ↔ Matches r s := by
  induction s generalizing r with
  | nil => exact nullable_iff r
  | cons c s ih => rw [fullMatch, ih, deriv_iff]

/-- The lookahead matcher decides whether a prefix is in the language. -/
theorem lookaheadMatch_iff (r : Re) (s : List Char) :
    lookaheadMatch r s = true ↔ ∃ p t, s = p ++ t ∧ Matches r p := by
  induction s generalizing r with
  | nil =>
      rw [lookaheadMatch, nullable_iff]
      constructor
      · intro h; exact ⟨[], [], rfl, h⟩
      · rintro ⟨p, t, hs, h⟩
        obtain ⟨rfl, -⟩ := List.append_eq_nil.mp hs.symm
        exact h
  | cons c s ih =>
      rw [lookaheadMatch, Bool.or_eq_true, ih, nullable_iff]
      constructor
      · rintro (h | ⟨p, t, hs, h⟩)
        · exact ⟨[], c :: s, rfl, h⟩
        · exact ⟨c :: p, t, by simp [hs], (deriv_iff r c p).mp h⟩
      · rintro ⟨p, t, hs, h⟩
        cases p with
        | nil => exact Or.inl h
        | cons x p =>
            simp only [List.cons_append, List.cons.injEq] at hs
            obtain ⟨rfl, rfl⟩ := hs
            exact Or.inr ⟨p, t, rfl, (deriv_iff r c p).mpr h⟩

theorem matches_seq_iff (a b : Re) (s : List Char) :
    Matches (seq a b) s ↔ ∃ s1 s2, s = s1 ++ s2 ∧ Matches a s1 ∧ Matches b s2 := by
  constructor
  · intro h
    cases h with
    | seq h1 h2 => exact ⟨_, _, rfl, h1, h2⟩
  · rintro ⟨s1, s2, rfl, h1, h2⟩
    exact Matches.seq h1 h2

theorem matches_cls_iff (p : Char → Bool) (s : List Char) :
    Matches (cls p) s ↔ ∃ c, s = [c] ∧ p c = true := by
  constructor
  · intro h
    cases h with
    | cls hp => exact ⟨_, rfl, hp⟩
  · rintro ⟨c, rfl, hp⟩
    exact Matches.cls hp

theorem matches_star_cls {p : Char → Bool} {r : Re} {s : List Char} (h : Matches r s) :
    r = star (cls p) → ∀ c ∈ s, p c = true := by
  induction h with
  | eps => intro hr; cases hr
  | cls _ => intro hr; cases hr
  | seq _ _ _ _ => intro hr; cases hr
  | altL _ _ => intro hr; cases hr
  | altR _ _ => intro hr; cases hr
  | starNil => intro _ c hc; cases hc
  | @starCons a s1 s2 h1 _ _ ih2 =>
      intro hr c hc
      cases hr
      rcases List.mem_append.mp hc with hc | hc
      · cases h1 with
        | cls hp =>
            rw [List.mem_singleton] at hc
            rw [hc]; exact hp
      · exact ih2 rfl c hc

theorem matches_star_cls_iff (p : Char → Bool) (s : List Char) :
    Matches (star (cls p)) s ↔ ∀ c ∈ s, p c = true := by
  constructor
  · intro h; exact matches_star_cls h rfl
  · intro h
    induction s with
    | nil => exact Matches.starNil
    | cons c s ih =>
        have h1 : Matches (cls p) [c] := Matches.cls (h c (List.mem_cons_self c s))
        exact Matches.starCons h1 (ih (fun x hx => h x (List.mem_cons_of_mem c hx)))

theorem matches_atLeast_cls_iff (p : Char → Bool) (n : Nat) (s : List Char) :
    Matches (atLeast n (cls p)) s ↔ (∀ c ∈ s, p c = true) ∧ n ≤ s.length := by
  induction n generalizing s with
  | zero => simp [atLeast, matches_star_cls_iff]
  | succ n ih =>
      rw [atLeast, matches_seq_iff]
      constructor
      · rintro ⟨s1, s2, rfl, h1, h2⟩
        obtain ⟨c, rfl, hp⟩ := (matches_cls_iff p s1).mp h1
        obtain ⟨hall, hlen⟩ := (ih s2).mp h2
        refine ⟨?_, by simpa using hlen⟩
        intro x hx
        rcases List.mem_cons.mp hx with rfl | hx
        · exact hp
        · exact hall x hx
      · rintro ⟨hall, hlen⟩
        cases s with
        | nil => simp at hlen
        | cons c s =>
            refine ⟨[c], s, rfl, Matches.cls (hall c (List.mem_cons_self c s)), (ih s).mpr ⟨?_, ?_⟩⟩
            · exact fun x hx => hall x (List.mem_cons_of_mem c hx)
            · simpa using hlen

end Re

/-! ## What the password regex accepts -/

theorem isDot_of_passwordChar {c : Char} (h : isPasswordChar c = true) : isDot c = true := by
  have hA : 'A'.toNat = 65 := by decide
  have hZ : 'Z'.toNat = 90 := by decide
  have ha : 'a'.toNat = 97 := by decide
  have hz : 'z'.toNat = 122 := by decide
  have h0 : '0'.toNat = 48 := by decide
  have h9 : '9'.toNat = 57 := by decide
  simp only [isPasswordChar, isUpper, isLower, isDigit, isSpecial, Bool.or_eq_true,
    Bool.and_eq_true, decide_eq_true_eq, beq_iff_eq] at h
  have hlt : c.toNat < 128 := by
    rcases h with ((h | h) | h) | h
    · omega
    · omega
    · omega
    · rcases h with (((((h | h) | h) | h) | h) | h) | h <;> rw [h] <;> decide
  have hne : c.toNat ≠ 10 ∧ c.toNat ≠ 13 := by
    rcases h with ((h | h) | h) | h
    · omega
    · omega
    · omega
    · rcases h with (((((h | h) | h) | h) | h) | h) | h <;> rw [h] <;> decide
  simp only [isDot, Bool.not_eq_true', Bool.or_eq_false_iff, beq_eq_false_iff_ne, ne_eq]
  omega

/-- The lookahead `(?=.*[cls])` succeeds exactly when a character of the class is
reachable from the start over characters that are not line terminators. -/
theorem lookaheadFor_iff (q : Char → Bool) (s : List Char) :
    (lookaheadFor q).lookaheadMatch s = true ↔
      ∃ pre c t, s = pre ++ c :: t ∧ (∀ x ∈ pre, isDot x = true) ∧ q c = true := by
  rw [Re.lookaheadMatch_iff]
  constructor
  · rintro ⟨p, t, rfl, h⟩
    obtain ⟨s1, s2, rfl, h1, h2⟩ := (Re.matches_seq_iff _ _ _).mp h
    obtain ⟨c, rfl, hq⟩ := (Re.matches_cls_iff _ _).mp h2
    exact ⟨s1, c, t, by simp, (Re.matches_star_cls_iff _ _).mp h1, hq⟩
  · rintro ⟨pre, c, t, rfl, hpre, hq⟩
    refine ⟨pre ++ [c], t, by simp, ?_⟩
    exact Re.Matches.seq ((Re.matches_star_cls_iff _ _).mpr hpre) (Re.Matches.cls hq)

theorem lookaheadFor_exists {q : Char → Bool} {s : List Char}
    (h : (lookaheadFor q).lookaheadMatch s = true) : ∃ c ∈ s, q c = true := by
  obtain ⟨pre, c, t, rfl, -, hq⟩ := (lookaheadFor_iff q s).mp h
  exact ⟨c, by simp, hq⟩

theorem lookaheadFor_of_exists {q : Char → Bool} {s : List Char}
    (hdot : ∀ x ∈ s, isDot x = true) (h : ∃ c ∈ s, q c = true) :
    (lookaheadFor q).lookaheadMatch s = true := by
  obtain ⟨c, hc, hq⟩ := h
  obtain ⟨pre, t, rfl⟩ := List.append_of_mem hc
  exact (lookaheadFor_iff q _).mpr
    ⟨pre, c, t, rfl, fun x hx => hdot x (List.mem_append_left _ hx), hq⟩

/-- The password regex accepts exactly the strings of at least 8 characters, all from
`[A-Za-z\d@$!%*?&]`, that hold a lowercase letter, an uppercase letter, a digit and one
of `@$!%*?&`. -/
theorem passwordRegexMatch_iff (s : List Char) :
    passwordRegexMatch s = true ↔
      (∀ c ∈ s, isPasswordChar c = true) ∧ 8 ≤ s.length ∧
      (∃ c ∈ s, isLower c = true) ∧ (∃ c ∈ s, isUpper c = true) ∧
      (∃ c ∈ s, isDigit c = true) ∧ (∃ c ∈ s, isSpecial c = true) := by
  simp only [passwordRegexMatch, Bool.and_eq_true, passwordBody, Re.fullMatch_iff,
    Re.matches_atLeast_cls_iff]
  constructor
  · rintro ⟨⟨⟨⟨h1, h2⟩, h3⟩, h4⟩, hall, hlen⟩
    exact ⟨hall, hlen, lookaheadFor_exists h1, lookaheadFor_exists h2,
      lookaheadFor_exists h3, lookaheadFor_exists h4⟩
  · rintro ⟨hall, hlen, h1, h2, h3, h4⟩
    have hdot : ∀ x ∈ s, isDot x = true := fun x hx => isDot_of_passwordChar (hall x hx)
    exact ⟨⟨⟨⟨lookaheadFor_of_exists hdot h1, lookaheadFor_of_exists hdot h2⟩,
      lookaheadFor_of_exists hdot h3⟩, lookaheadFor_of_exists hdot h4⟩, hall, hlen⟩

/-! ## What the email regex accepts -/

/-- Every string the email regex accepts holds an `@` and ends in a dotted suffix. -/
theorem emailRegex_shape {s : List Char} (h : emailRegex.fullMatch s = true) :
    '@' ∈ s ∧ EndsWithDottedSuffix s := by
  rw [Re.fullMatch_iff, emailRegex] at h
  obtain ⟨s1, r1, rfl, -, h⟩ := (Re.matches_seq_iff _ _ _).mp h
  obtain ⟨s2, r2, rfl, -, h⟩ := (Re.matches_seq_iff _ _ _).mp h
  obtain ⟨s3, r3, rfl, hat, h⟩ := (Re.matches_seq_iff _ _ _).mp h
  obtain ⟨s4, r4, rfl, -, h⟩ := (Re.matches_seq_iff _ _ _).mp h
  obtain ⟨s5, s6, rfl, hdot, htld⟩ := (Re.matches_seq_iff _ _ _).mp h
  obtain ⟨a, rfl, ha⟩ := (Re.matches_cls_iff _ _).mp hat
  obtain ⟨b, rfl, hb⟩ := (Re.matches_cls_iff _ _).mp hdot
  obtain ⟨hall, hlen⟩ := (Re.matches_atLeast_cls_iff _ _ _).mp htld
  have ha' : a = '@' := by simpa using ha
  have hb' : b = '.' := by simpa using hb
  subst ha' hb'
  refine ⟨by simp, s1 ++ (s2 ++ ('@' :: s4)), s6, by simp, hlen, hall⟩

/-! ## Facts about strings and class lists -/

theorem utf16Units_of_nameChar {c : Char} (h : isNameChar c = true) : utf16Units c = 1 := by
  have hz : 'z'.toNat = 122 := by decide
  have hZ : 'Z'.toNat = 90 := by decide
  have hsp : ' '.toNat = 32 := by decide
  simp only [isNameChar, isLower, isUpper, Bool.or_eq_true, Bool.and_eq_true,
    decide_eq_true_eq, beq_iff_eq] at h
  have hlt : c.toNat < 0x10000 := by
    rcases h with (h | h) | h
    · omega
    · omega
    · rw [h, hsp]; decide
  simp [utf16Units, hlt]

theorem jsLength_of_nameChars {s : List Char} (h : ∀ c ∈ s, isNameChar c = true) :
    jsLength s = s.length := by
  induction s with
  | nil => rfl
  | cons c s ih =>
      have h1 := utf16Units_of_nameChar (h c (List.mem_cons_self c s))
      have h2 := ih (fun x hx => h x (List.mem_cons_of_mem c hx))
      simp only [jsLength, List.map_cons, List.sum_cons, List.length_cons] at h2 ⊢
      omega

theorem length_le_jsLength (s : List Char) : s.length ≤ jsLength s := by
  induction s with
  | nil => simp [jsLength]
  | cons c s ih =>
      have h1 : 1 ≤ utf16Units c := by unfold utf16Units; split <;> omega
      simp only [jsLength, List.map_cons, List.sum_cons, List.length_cons] at ih ⊢
      omega

theorem not_mem_classRemove (cl : List String) (t : String) : t ∉ classRemove cl t := by
  simp [classRemove]

theorem mem_classAdd (cl : List String) (t : String) : t ∈ classAdd cl t := by
  unfold classAdd
  split <;> simp_all

/-! ## Facts about the message surface -/

theorem showError_text (msg : String) (m : MessageSurface) :
    (showError msg m).textContent = msg := by
  rcases m with ⟨t, cl, _ | _, disp⟩ <;> rfl

theorem showError_contained (msg : String) (m : MessageSurface) :
    (showError msg m).contained = true := by
  rcases m with ⟨t, cl, _ | _, disp⟩ <;> rfl

theorem showError_display (msg : String) (m : MessageSurface) :
    (showError msg m).display = "block" := by
  rcases m with ⟨t, cl, _ | _, disp⟩ <;> rfl

theorem clearError_contained (m : MessageSurface) : (clearError m).contained = false := by
  rcases m with ⟨t, cl, _ | _, disp⟩ <;> rfl

theorem clearError_text (m : MessageSurface) : (clearError m).textContent = "" := by
  rcases m with ⟨t, cl, _ | _, disp⟩ <;> rfl

theorem showSucessMessage_after_clear (msg : String) (m : MessageSurface) :
    (showSucessMessage msg (clearError m)).textContent = msg ∧
    (showSucessMessage msg (clearError m)).contained = true ∧
    (showSucessMessage msg (clearError m)).display = "block" ∧
    "text-red-500" ∉ (showSucessMessage msg (clearError m)).classList := by
  have hc := clearError_contained m
  simp only [showSucessMessage, hc]
  simp [not_mem_classRemove]

/-! ## Facts about the validators -/

theorem handleTextField_cases (d : Dom) :
    ((handleTextField d).2 = false ∧
      (handleTextField d).1 = { d with
        message := showError (handleTextField d).1.message.textContent d.message,
        nameInput := setAriaInvalid d.nameInput "true" }) ∨
    ((handleTextField d).2 = true ∧
      (handleTextField d).1 = { d with
        message := clearError d.message,
        nameInput := setAriaInvalid d.nameInput "false" }) := by
  unfold handleTextField
  simp only
  split_ifs <;> simp [showError_text]

theorem handleEmailField_cases (d : Dom) :
    ((handleEmailField d).2 = false ∧
      (handleEmailField d).1 = { d with
        message := showError (handleEmailField d).1.message.textContent d.message,
        emailInput := setAriaInvalid d.emailInput "true" }) ∨
    ((handleEmailField d).2 = true ∧
      (handleEmailField d).1 = { d with
        message := clearError d.message,
        emailInput := setAriaInvalid d.emailInput "false" }) := by
  unfold handleEmailField
  simp only
  split_ifs <;> simp [showError_text]

theorem handlePasswordField_cases (d : Dom) :
    ((handlePasswordField d).2 = false ∧
      (handlePasswordField d).1 = { d with
        message := showError (handlePasswordField d).1.message.textContent d.message,
        passwordInput := setAriaInvalid d.passwordInput "true" }) ∨
    ((handlePasswordField d).2 = true ∧
      (handlePasswordField d).1 = { d with
        message := clearError d.message,
        passwordInput := setAriaInvalid d.passwordInput "false" }) := by
  unfold handlePasswordField
  simp only
  split_ifs <;> simp [showError_text]

/-- The email validator reads nothing but the email value. -/
theorem handleEmailField_congr (d d' : Dom) (h : d'.emailInput.value = d.emailInput.value) :
    (handleEmailField d').2 = (handleEmailField d).2 ∧
    (handleEmailField d').1.message.textContent = (handleEmailField d).1.message.textContent := by
  unfold handleEmailField
  simp only [h]
  split_ifs <;> simp [showError_text, clearError_text]

/-- The password validator reads nothing but the password value. -/
theorem handlePasswordField_congr (d d' : Dom)
    (h : d'.passwordInput.value = d.passwordInput.value) :
    (handlePasswordField d').2 = (handlePasswordField d).2 ∧
    (handlePasswordField d').1.message.textContent
      = (handlePasswordField d).1.message.textContent := by
  unfold handlePasswordField
  simp only [h]
  split_ifs <;> simp [showError_text, clearError_text]

/-- The name validator reads nothing but the name value. -/
theorem handleTextField_congr (d d' : Dom) (h : d'.nameInput.value = d.nameInput.value) :
    (handleTextField d').2 = (handleTextField d).2 ∧
    (handleTextField d').1.message.textContent = (handleTextField d).1.message.textContent := by
  unfold handleTextField
  simp only [h]
  split_ifs <;> simp [showError_text, clearError_text]

/-- The password validator returns `true` exactly when the regex matches the trimmed
value. -/
theorem handlePasswordField_true_iff (d : Dom) :
    (handlePasswordField d).2 = true ↔
      passwordRegexMatch (trim d.passwordInput.value.toList) = true := by
  unfold handlePasswordField
  simp only
  split_ifs with h1 h2
  · rw [h1]; decide
  · simp only [Bool.not_eq_true'] at h2
    rw [h2]; decide
  · simp only [Bool.not_eq_true', Bool.not_eq_false] at h2
    rw [h2]

theorem checkPasswordInput_frame (d : Dom) :
    (checkPasswordInput d).nameInput = d.nameInput ∧
    (checkPasswordInput d).emailInput = d.emailInput ∧
    (checkPasswordInput d).passwordInput.value = d.passwordInput.value ∧
    (checkPasswordInput d).message = d.message := by
  unfold checkPasswordInput
  simp only
  split_ifs <;> simp [markInvalid, markValid, setAriaInvalid]

/-! ## Facts about the submit handler -/

/-- The submit handler as a chain of the three validators. -/
theorem processDataInput_eq (e : Event) (d : Dom) :
    (processDataInput e d).2 =
      if (handleTextField d).2 = false then (handleTextField d).1
      else if (handleEmailField (handleTextField d).1).2 = false then
        (handleEmailField (handleTextField d).1).1
      else if (handlePasswordField (handleEmailField (handleTextField d).1).1).2 = false then
        (handlePasswordField (handleEmailField (handleTextField d).1).1).1
      else submitSuccess (handlePasswordField (handleEmailField (handleTextField d).1).1).1 := by
  unfold processDataInput
  rcases h1 : handleTextField d with ⟨d1, b1⟩
  cases b1
  · simp
  · rcases h2 : handleEmailField d1 with ⟨d2, b2⟩
    cases b2
    · simp [h2]
    · rcases h3 : handlePasswordField d2 with ⟨d3, b3⟩
      cases b3
      · simp [h2, h3]
      · simp [h2, h3, submitSuccess]

/-- A submit whose name rule fails ends after `handleTextField`. -/
theorem submit_name_fails (e : Event) (d : Dom) (hn : (handleTextField d).2 = false) :
    (processDataInput e d).2 = { d with
      message := showError (handleTextField d).1.message.textContent d.message,
      nameInput := setAriaInvalid d.nameInput "true" } := by
  rw [processDataInput_eq, if_pos hn]
  rcases handleTextField_cases d with ⟨_, h⟩ | ⟨h, _⟩
  · exact h
  · rw [hn] at h; cases h

/-- A submit whose name rule passes and whose email rule fails ends after
`handleEmailField`. -/
theorem submit_email_fails (e : Event) (d : Dom) (hn : (handleTextField d).2 = true)
    (he : (handleEmailField d).2 = false) :
    (processDataInput e d).2 = { d with
      message := showError (handleEmailField d).1.message.textContent (clearError d.message),
      nameInput := setAriaInvalid d.nameInput "false",
      emailInput := setAriaInvalid d.emailInput "true" } := by
  have h1 : (handleTextField d).1 = { d with
      message := clearError d.message, nameInput := setAriaInvalid d.nameInput "false" } := by
    rcases handleTextField_cases d with ⟨h, _⟩ | ⟨_, h⟩
    · rw [hn] at h; cases h
    · exact h
  have hc := handleEmailField_congr d (handleTextField d).1 (by rw [h1])
  have he1 : (handleEmailField (handleTextField d).1).2 = false := by rw [hc.1, he]
  rw [processDataInput_eq, if_neg (by simp [hn]), if_pos he1]
  rcases handleEmailField_cases (handleTextField d).1 with ⟨_, h⟩ | ⟨h, _⟩
  · rw [h, hc.2, h1]
  · rw [he1] at h; cases h

/-- A submit whose name and email rules pass and whose password rule fails ends after
`handlePasswordField`. -/
theorem submit_password_fails (e : Event) (d : Dom) (hn : (handleTextField d).2 = true)
    (he : (handleEmailField d).2 = true) (hp : (handlePasswordField d).2 = false) :
    (processDataInput e d).2 = { d with
      message := showError (handlePasswordField d).1.message.textContent
        (clearError (clearError d.message)),
      nameInput := setAriaInvalid d.nameInput "false",
      emailInput := setAriaInvalid d.emailInput "false",
      passwordInput := setAriaInvalid d.passwordInput "true" } := by
  have h1 : (handleTextField d).1 = { d with
      message := clearError d.message, nameInput := setAriaInvalid d.nameInput "false" } := by
    rcases handleTextField_cases d with ⟨h, _⟩ | ⟨_, h⟩
    · rw [hn] at h; cases h
    · exact h
  have hc := handleEmailField_congr d (handleTextField d).1 (by rw [h1])
  have he1 : (handleEmailField (handleTextField d).1).2 = true := by rw [hc.1, he]
  have h2 : (handleEmailField (handleTextField d).1).1 = { d with
      message := clearError (clearError d.message),
      nameInput := setAriaInvalid d.nameInput "false",
      emailInput := setAriaInvalid d.emailInput "false" } := by
    rcases handleEmailField_cases (handleTextField d).1 with ⟨h, _⟩ | ⟨_, h⟩
    · rw [he1] at h; cases h
    · rw [h, h1]
  have hq := handlePasswordField_congr d (handleEmailField (handleTextField d).1).1 (by rw [h2])
  have hp1 : (handlePasswordField (handleEmailField (handleTextField d).1).1).2 = false := by
    rw [hq.1, hp]
  rw [processDataInput_eq, if_neg (by simp [hn]), if_neg (by simp [he1]), if_pos hp1]
  rcases handlePasswordField_cases (handleEmailField (handleTextField d).1).1 with ⟨_, h⟩ | ⟨h, _⟩
  · rw [h, hq.2, h2]
  · rw [hp1] at h; cases h

/-- A submit whose three rules pass runs the success branch. -/
theorem submit_all_pass (e : Event) (d : Dom) (hn : (handleTextField d).2 = true)
    (he : (handleEmailField d).2 = true) (hp : (handlePasswordField d).2 = true) :
    (processDataInput e d).2 =
      { nameInput := { setAriaInvalid d.nameInput "false" with value := "" }
        emailInput := { setAriaInvalid d.emailInput "false" with value := "" }
        passwordInput := { setAriaInvalid d.passwordInput "false" with value := "" }
        message := showSucessMessage "Form has successfully been sent."
          (clearError (clearError (clearError (clearError d.message)))) } := by
  have h1 : (handleTextField d).1 = { d with
      message := clearError d.message, nameInput := setAriaInvalid d.nameInput "false" } := by
    rcases handleTextField_cases d with ⟨h, _⟩ | ⟨_, h⟩
    · rw [hn] at h; cases h
    · exact h
  have hc := handleEmailField_congr d (handleTextField d).1 (by rw [h1])
  have he1 : (handleEmailField (handleTextField d).1).2 = true := by rw [hc.1, he]
  have h2 : (handleEmailField (handleTextField d).1).1 = { d with
      message := clearError (clearError d.message),
      nameInput := setAriaInvalid d.nameInput "false",
      emailInput := setAriaInvalid d.emailInput "false" } := by
    rcases handleEmailField_cases (handleTextField d).1 with ⟨h, _⟩ | ⟨_, h⟩
    · rw [he1] at h; cases h
    · rw [h, h1]
  have hq := handlePasswordField_congr d (handleEmailField (handleTextField d).1).1 (by rw [h2])
  have hp1 : (handlePasswordField (handleEmailField (handleTextField d).1).1).2 = true := by
    rw [hq.1, hp]
  have h3 : (handlePasswordField (handleEmailField (handleTextField d).1).1).1 = { d with
      message := clearError (clearError (clearError d.message)),
      nameInput := setAriaInvalid d.nameInput "false",
      emailInput := setAriaInvalid d.emailInput "false",
      passwordInput := setAriaInvalid d.passwordInput "false" } := by
    rcases handlePasswordField_cases (handleEmailField (handleTextField d).1).1 with
      ⟨h, _⟩ | ⟨_, h⟩
    · rw [hp1] at h; cases h
    · rw [h, h2]
  rw [processDataInput_eq, if_neg (by simp [hn]), if_neg (by simp [he1]),
    if_neg (by simp [hp1]), h3]
  rfl

/-! ## Submission: rejection and success -/

/-- C1: in every document where at least one field rule fails, a submit leaves the
three field values unchanged and displays (text set, paragraph attached, container
shown) the message of the first failing field in the order name, email, password; that
field gets `aria-invalid="true"` and every later field is left exactly as it was, so
its `aria-invalid` flag is untouched.  With name `""`, email `"not-an-email"` and
password `"weak"` the text is "Please enter your name to continue." and the email and
password flags are untouched. -/
theorem processDataInput_rejects_at_first_failure (e : Event) (d : Dom) :
    (((handleTextField d).2 = false ∨ (handleEmailField d).2 = false ∨
        (handlePasswordField d).2 = false) →
      (processDataInput e d).2.nameInput.value = d.nameInput.value ∧
      (processDataInput e d).2.emailInput.value = d.emailInput.value ∧
      (processDataInput e d).2.passwordInput.value = d.passwordInput.value ∧
      (processDataInput e d).2.message.contained = true ∧
      (processDataInput e d).2.message.display = "block" ∧
      (if (handleTextField d).2 = false then
        (processDataInput e d).2.message.textContent = (handleTextField d).1.message.textContent ∧
        (processDataInput e d).2.nameInput.ariaInvalid = some "true" ∧
        (processDataInput e d).2.emailInput = d.emailInput ∧
        (processDataInput e d).2.passwordInput = d.passwordInput
      else if (handleEmailField d).2 = false then
        (processDataInput e d).2.message.textContent = (handleEmailField d).1.message.textContent ∧
        (processDataInput e d).2.emailInput.ariaInvalid = some "true" ∧
        (processDataInput e d).2.passwordInput = d.passwordInput
      else
        (processDataInput e d).2.message.textContent
          = (handlePasswordField d).1.message.textContent ∧
        (processDataInput e d).2.passwordInput.ariaInvalid = some "true")) ∧
    (d.nameInput.value = "" → d.emailInput.value = "not-an-email" →
        d.passwordInput.value = "weak" →
      (processDataInput e d).2.message.textContent = "Please enter your name to continue." ∧
      (processDataInput e d).2.message.contained = true ∧
      (processDataInput e d).2.message.display = "block" ∧
      (processDataInput e d).2.nameInput.ariaInvalid = some "true" ∧
      (processDataInput e d).2.emailInput.ariaInvalid = d.emailInput.ariaInvalid ∧
      (processDataInput e d).2.passwordInput.ariaInvalid = d.passwordInput.ariaInvalid ∧
      (processDataInput e d).2.nameInput.value = "" ∧
      (processDataInput e d).2.emailInput.value = "not-an-email" ∧
      (processDataInput e d).2.passwordInput.value = "weak") := by
  constructor
  · intro h
    by_cases hn : (handleTextField d).2 = false
    · rw [if_pos hn, submit_name_fails e d hn]
      simp [showError_text, showError_contained, showError_display, setAriaInvalid]
    · have hn1 : (handleTextField d).2 = true := by simpa using hn
      by_cases he : (handleEmailField d).2 = false
      · rw [if_neg hn, if_pos he, submit_email_fails e d hn1 he]
        simp [showError_text, showError_contained, showError_display, setAriaInvalid]
      · have he1 : (handleEmailField d).2 = true := by simpa using he
        have hp : (handlePasswordField d).2 = false := by
          rcases h with h | h | h
          · exact absurd h hn
          · exact absurd h he
          · exact h
        rw [if_neg hn, if_neg he, submit_password_fails e d hn1 he1 hp]
        simp [showError_text, showError_contained, showError_display, setAriaInvalid]
  · intro h1 h2 h3
    have hn : (handleTextField d).2 = false := by
      have ht : trim d.nameInput.value.toList = [] := by rw [h1]; decide
      simp only [handleTextField, ht, if_true]
    have htxt : (handleTextField d).1.message.textContent
        = "Please enter your name to continue." := by
      have ht : trim d.nameInput.value.toList = [] := by rw [h1]; decide
      simp only [handleTextField, ht, if_true, showError_text]
    rw [submit_name_fails e d hn, htxt]
    simp [showError_text, showError_contained, showError_display, setAriaInvalid, h1, h2, h3]

/-- Witness for C1: the short-circuit state, with an `aria-invalid` flag already on the
email field and a success message on display. -/
theorem processDataInput_rejects_at_first_failure_witness :
    (handleTextField shortCircuitDom).2 = false ∧
    (processDataInput ⟨false⟩ shortCircuitDom).2
      = { nameInput := ⟨"", [], some "true"⟩
          emailInput := ⟨"not-an-email", [], some "false"⟩
          passwordInput := ⟨"weak", [], none⟩
          message := ⟨"Please enter your name to continue.", [], true, "block"⟩ } ∧
    (processDataInput ⟨false⟩ shortCircuitDom).2.message.textContent
      = "Please enter your name to continue." :=
  ⟨by decide, by decide,
    ((processDataInput_rejects_at_first_failure ⟨false⟩ shortCircuitDom).2 rfl rfl rfl).1⟩

/-- C2: in every document whose three rules pass, whatever message was displayed
before, a submit sets the three field values to the empty string and leaves the message
surface displayed (paragraph attached, container shown) with the text
"Form has successfully been sent." and without the class `text-red-500`. -/
theorem processDataInput_success (e : Event) (d : Dom)
    (hn : (handleTextField d).2 = true) (he : (handleEmailField d).2 = true)
    (hp : (handlePasswordField d).2 = true) :
    (processDataInput e d).2.nameInput.value = "" ∧
    (processDataInput e d).2.emailInput.value = "" ∧
    (processDataInput e d).2.passwordInput.value = "" ∧
    (processDataInput e d).2.message.textContent = "Form has successfully been sent." ∧
    (processDataInput e d).2.message.contained = true ∧
    (processDataInput e d).2.message.display = "block" ∧
    "text-red-500" ∉ (processDataInput e d).2.message.classList := by
  rw [submit_all_pass e d hn he hp]
  exact ⟨rfl, rfl, rfl, showSucessMessage_after_clear _ _⟩

/-- Witness for C2: the end-to-end success example, submitted while an error message
with error styling is on display. -/
theorem processDataInput_success_witness :
    (handleTextField (domOf "Jane Doe" "jane@example.com" "Str0ng!Pass"
        ⟨"Please check your email.", ["text-red-500"], true, "block"⟩)).2 = true ∧
    (processDataInput ⟨false⟩ (domOf "Jane Doe" "jane@example.com" "Str0ng!Pass"
        ⟨"Please check your email.", ["text-red-500"], true, "block"⟩)).2.message
      = ⟨"Form has successfully been sent.", [], true, "block"⟩ ∧
    (processDataInput ⟨false⟩ (domOf "Jane Doe" "jane@example.com" "Str0ng!Pass"
        ⟨"Please check your email.", ["text-red-500"], true, "block"⟩)).2.nameInput.value = "" :=
  ⟨by decide, by decide,
    (processDataInput_success ⟨false⟩ (domOf "Jane Doe" "jane@example.com" "Str0ng!Pass"
        ⟨"Please check your email.", ["text-red-500"], true, "block"⟩)
      (by decide) (by decide) (by decide)).1⟩

/-! ## The name rule -/

/-- C3: for every name whose trimmed value has between 3 and 50 characters, all of
them letters `A-Z`, `a-z` or spaces, `handleTextField` returns `true` and sets
`aria-invalid="false"` on the name field. -/
theorem handleTextField_accepts (d : Dom)
    (hlo : 3 ≤ (trim d.nameInput.value.toList).length)
    (hhi : (trim d.nameInput.value.toList).length ≤ 50)
    (hch : ∀ c ∈ trim d.nameInput.value.toList, isNameChar c = true) :
    (handleTextField d).2 = true ∧
    (handleTextField d).1.nameInput.ariaInvalid = some "false" := by
  have hlen := jsLength_of_nameChars hch
  have hne : trim d.nameInput.value.toList ≠ [] := by
    intro h; rw [h] at hlo; simp at hlo
  have hlen' : ¬ (jsLength (trim d.nameInput.value.toList) < 3 ∨
      jsLength (trim d.nameInput.value.toList) > 50) := by rw [hlen]; omega
  have hre : nameRegexMatch (trim d.nameInput.value.toList) = false := by
    simp only [nameRegexMatch, List.any_eq_false]
    intro c hc; simp [hch c hc]
  simp only [handleTextField, hne, if_false, Bool.or_eq_true, decide_eq_true_eq, hlen', hre,
    Bool.false_eq_true, setAriaInvalid, and_self]

/-- Witness for C3: the name " Jane Doe " (trimmed to 8 letters and a space). -/
theorem handleTextField_accepts_witness :
    3 ≤ (trim " Jane Doe ".toList).length ∧ (trim " Jane Doe ".toList).length ≤ 50 ∧
    (handleTextField (domOf " Jane Doe " "" "" initialMessage)).2 = true ∧
    (handleTextField (domOf " Jane Doe " "" "" initialMessage)).1.nameInput.ariaInvalid
      = some "false" :=
  ⟨by decide, by decide,
    handleTextField_accepts (domOf " Jane Doe " "" "" initialMessage)
      (by decide) (by decide) (by decide)⟩

/-- C4: `handleTextField` reports the first failing check in the order empty, length,
characters.  If the trimmed name is empty it fails with "Please enter your name to
continue."; otherwise, if its length (in UTF-16 code units, as `value.length` counts)
is below 3 or above 50, it fails with "Name must be at least 3 characters." whatever
characters it holds; otherwise, if it holds a character outside `[A-Za-z ]`, it fails
with "Name cannot contain numbers or special characters.".  In each case the message is
displayed and `aria-invalid="true"` is set on the name field. -/
theorem handleTextField_first_failing_check (d : Dom) :
    (trim d.nameInput.value.toList = [] →
      (handleTextField d).2 = false ∧
      Rejected "Please enter your name to continue." d (handleTextField d).1 ∧
      (handleTextField d).1.nameInput.ariaInvalid = some "true") ∧
    (trim d.nameInput.value.toList ≠ [] →
      (jsLength (trim d.nameInput.value.toList) < 3 ∨
        50 < jsLength (trim d.nameInput.value.toList)) →
      (handleTextField d).2 = false ∧
      Rejected "Name must be at least 3 characters." d (handleTextField d).1 ∧
      (handleTextField d).1.nameInput.ariaInvalid = some "true") ∧
    (trim d.nameInput.value.toList ≠ [] →
      ¬ (jsLength (trim d.nameInput.value.toList) < 3 ∨
        50 < jsLength (trim d.nameInput.value.toList)) →
      (∃ c ∈ trim d.nameInput.value.toList, isNameChar c = false) →
      (handleTextField d).2 = false ∧
      Rejected "Name cannot contain numbers or special characters." d (handleTextField d).1 ∧
      (handleTextField d).1.nameInput.ariaInvalid = some "true") := by
  refine ⟨?_, ?_, ?_⟩
  · intro h
    simp only [handleTextField, h, if_true, Rejected, showError_text, showError_contained,
      showError_display, setAriaInvalid, and_self]
  · intro hne hlen
    have hlen' : (jsLength (trim d.nameInput.value.toList) < 3 ∨
        jsLength (trim d.nameInput.value.toList) > 50) := hlen
    simp only [handleTextField, hne, if_false, Bool.or_eq_true, decide_eq_true_eq, hlen',
      if_true, Rejected, showError_text, showError_contained, showError_display,
      setAriaInvalid, and_self]
  · intro hne hlen hch
    have hlen' : ¬ (jsLength (trim d.nameInput.value.toList) < 3 ∨
        jsLength (trim d.nameInput.value.toList) > 50) := hlen
    have hre : nameRegexMatch (trim d.nameInput.value.toList) = true := by
      obtain ⟨c, hc, hcc⟩ := hch
      simp only [nameRegexMatch, List.any_eq_true]
      exact ⟨c, hc, by simp [hcc]⟩
    simp only [handleTextField, hne, if_false, Bool.or_eq_true, decide_eq_true_eq, hlen',
      hre, if_true, Rejected, showError_text, showError_contained, showError_display,
      setAriaInvalid, and_self]

/-- Witness for C4: a blank name, a name that is too short and holds a digit, a name
that is too long and holds a digit, and a name of accepted length that holds a digit. -/
theorem handleTextField_first_failing_check_witness :
    (handleTextField (domOf "  " "" "" initialMessage)).1.message.textContent
      = "Please enter your name to continue." ∧
    (handleTextField (domOf "A1" "" "" initialMessage)).1.message.textContent
      = "Name must be at least 3 characters." ∧
    (handleTextField (domOf
        "0123456789012345678901234567890123456789012345678901234567890" "" ""
        initialMessage)).1.message.textContent
      = "Name must be at least 3 characters." ∧
    (handleTextField (domOf "J0hn" "" "" initialMessage)).1.message.textContent
      = "Name cannot contain numbers or special characters." :=
  ⟨((handleTextField_first_failing_check (domOf "  " "" "" initialMessage)).1
      (by decide)).2.1.1,
   ((handleTextField_first_failing_check (domOf "A1" "" "" initialMessage)).2.1
      (by decide) (by decide)).2.1.1,
   ((handleTextField_first_failing_check (domOf
      "0123456789012345678901234567890123456789012345678901234567890" "" ""
      initialMessage)).2.1 (by decide) (by decide)).2.1.1,
   ((handleTextField_first_failing_check (domOf "J0hn" "" "" initialMessage)).2.2
      (by decide) (by decide) ⟨'0', by decide, by decide⟩).2.1.1⟩

/-! ## The password rule -/

/-- Counterexample to C5 as stated: the blank password is missing a lowercase letter
and is shorter than 8 characters, yet the message is the one for an empty field, not
the policy message. -/
theorem handlePasswordField_blank_counterexample :
    (trim (domOf "Jane Doe" "jane@example.com" "" initialMessage).passwordInput.value.toList).all
      (fun c => !isLower c) = true ∧
    (trim (domOf "Jane Doe" "jane@example.com" "" initialMessage).passwordInput.value.toList).length
      < 8 ∧
    (handlePasswordField (domOf "Jane Doe" "jane@example.com" "" initialMessage)).1.message.textContent
      = "Please fill out the password field" ∧
    (handlePasswordField (domOf "Jane Doe" "jane@example.com" "" initialMessage)).1.message.textContent
      ≠ "Password must be at least 8 characters, include uppercase, lowercase, number, and special character." := by
  decide

/-- C5 (amended): for every password whose trimmed value is not empty and is missing a
lowercase letter, or an uppercase letter, or a digit, or a character of `@$!%*?&`, or is
shorter than 8 characters (counted in characters or in UTF-16 code units),
`handlePasswordField` returns `false`, displays the policy message and sets
`aria-invalid="true"` on the password field. -/
theorem handlePasswordField_policy_violation (d : Dom)
    (hne : trim d.passwordInput.value.toList ≠ [])
    (h : (∀ c ∈ trim d.passwordInput.value.toList, isLower c = false) ∨
         (∀ c ∈ trim d.passwordInput.value.toList, isUpper c = false) ∨
         (∀ c ∈ trim d.passwordInput.value.toList, isDigit c = false) ∨
         (∀ c ∈ trim d.passwordInput.value.toList, isSpecial c = false) ∨
         (trim d.passwordInput.value.toList).length < 8 ∨
         jsLength (trim d.passwordInput.value.toList) < 8) :
    (handlePasswordField d).2 = false ∧
    Rejected "Password must be at least 8 characters, include uppercase, lowercase, number, and special character."
      d (handlePasswordField d).1 ∧
    (handlePasswordField d).1.passwordInput.ariaInvalid = some "true" := by
  have hre : passwordRegexMatch (trim d.passwordInput.value.toList) = false := by
    rw [Bool.eq_false_iff]
    intro hm
    obtain ⟨-, hlen, ⟨a, ha, hla⟩, ⟨b, hb, hub⟩, ⟨c, hc, hdc⟩, ⟨x, hx, hsx⟩⟩ :=
      (passwordRegexMatch_iff _).mp hm
    have hjs := length_le_jsLength (trim d.passwordInput.value.toList)
    rcases h with h | h | h | h | h | h
    · rw [h a ha] at hla; cases hla
    · rw [h b hb] at hub; cases hub
    · rw [h c hc] at hdc; cases hdc
    · rw [h x hx] at hsx; cases hsx
    · omega
    · omega
  simp only [handlePasswordField, hne, if_false, hre, Bool.not_false, if_true, Rejected,
    showError_text, showError_contained, showError_display, setAriaInvalid, and_self]

/-- Witness for C5 (amended): "weakpass1!" has ten characters but no uppercase letter. -/
theorem handlePasswordField_policy_violation_witness :
    trim "weakpass1!".toList ≠ [] ∧
    (handlePasswordField (domOf "Jane Doe" "jane@example.com" "weakpass1!" initialMessage)).2
      = false ∧
    (handlePasswordField (domOf "Jane Doe" "jane@example.com" "weakpass1!"
        initialMessage)).1.passwordInput.ariaInvalid = some "true" :=
  ⟨by decide,
    (handlePasswordField_policy_violation
      (domOf "Jane Doe" "jane@example.com" "weakpass1!" initialMessage) (by decide)
      (Or.inr (Or.inl (by decide)))).1,
    (handlePasswordField_policy_violation
      (domOf "Jane Doe" "jane@example.com" "weakpass1!" initialMessage) (by decide)
      (Or.inr (Or.inl (by decide)))).2.2⟩

/-- C6, evaluated at the failing input "Str0ng!Pass#": the password has 12 characters
and holds a lowercase letter, an uppercase letter, a digit and the special character
`!`, yet `handlePasswordField` returns `false` and displays the policy message, because
`#` is outside `[A-Za-z\d@$!%*?&]`. -/
theorem handlePasswordField_rejects_documented_password :
    8 ≤ (trim "Str0ng!Pass#".toList).length ∧
    (trim "Str0ng!Pass#".toList).any isLower = true ∧
    (trim "Str0ng!Pass#".toList).any isUpper = true ∧
    (trim "Str0ng!Pass#".toList).any isDigit = true ∧
    (trim "Str0ng!Pass#".toList).any isSpecial = true ∧
    (handlePasswordField (domOf "Jane Doe" "jane@example.com" "Str0ng!Pass#" initialMessage)).2
      = false ∧
    (handlePasswordField (domOf "Jane Doe" "jane@example.com" "Str0ng!Pass#"
        initialMessage)).1.message.textContent
      = "Password must be at least 8 characters, include uppercase, lowercase, number, and special character." := by
  decide

/-! ## The email rule -/

/-- Counterexample to C7 as stated: the blank email is missing an `@`, yet the message
is the one for an empty field, not "Please check your email.". -/
theorem handleEmailField_blank_counterexample :
    (trim (domOf "Jane Doe" "" "Str0ng!Pass" initialMessage).emailInput.value.toList).contains '@'
      = false ∧
    (handleEmailField (domOf "Jane Doe" "" "Str0ng!Pass" initialMessage)).1.message.textContent
      = "Email input cannot be empty." ∧
    (handleEmailField (domOf "Jane Doe" "" "Str0ng!Pass" initialMessage)).1.message.textContent
      ≠ "Please check your email." := by
  decide

/-- C7 (amended): for every email whose trimmed value is not empty and is missing an
`@`, or does not end in a `.` followed by two or more letters, `handleEmailField`
returns `false`, displays "Please check your email." and sets `aria-invalid="true"` on
the email field. -/
theorem handleEmailField_pattern_mismatch (d : Dom)
    (hne : trim d.emailInput.value.toList ≠ [])
    (h : '@' ∉ trim d.emailInput.value.toList ∨
         ¬ EndsWithDottedSuffix (trim d.emailInput.value.toList)) :
    (handleEmailField d).2 = false ∧
    Rejected "Please check your email." d (handleEmailField d).1 ∧
    (handleEmailField d).1.emailInput.ariaInvalid = some "true" := by
  have hre : emailRegex.fullMatch (trim d.emailInput.value.toList) = false := by
    rw [Bool.eq_false_iff]
    intro hm
    obtain ⟨hat, hsuf⟩ := emailRegex_shape hm
    rcases h with h | h
    · exact h hat
    · exact h hsuf
  simp only [handleEmailField, hne, if_false, hre, Bool.not_false, if_true, Rejected,
    showError_text, showError_contained, showError_display, setAriaInvalid, and_self]

/-- Witness for C7 (amended): "not-an-email" holds no `@`. -/
theorem handleEmailField_pattern_mismatch_witness :
    trim "not-an-email".toList ≠ [] ∧ '@' ∉ trim "not-an-email".toList ∧
    (handleEmailField (domOf "Jane Doe" "not-an-email" "Str0ng!Pass" initialMessage)).2 = false ∧
    (handleEmailField (domOf "Jane Doe" "not-an-email" "Str0ng!Pass"
        initialMessage)).1.message.textContent = "Please check your email." :=
  ⟨by decide, by decide,
    (handleEmailField_pattern_mismatch
      (domOf "Jane Doe" "not-an-email" "Str0ng!Pass" initialMessage) (by decide)
      (Or.inl (by decide))).1,
    (handleEmailField_pattern_mismatch
      (domOf "Jane Doe" "not-an-email" "Str0ng!Pass" initialMessage) (by decide)
      (Or.inl (by decide))).2.1.1⟩

/-! ## The message surface -/

/-- C8, evaluated at the failing input: a successful submit leaves the paragraph
attached without `text-red-500`; `showError` called on that surface (as the next
submit does) sets the text and shows the container but does not add the class, so the
error is displayed with the success styling. -/
theorem showError_keeps_success_styling :
    (processDataInput ⟨false⟩
      (domOf "Jane Doe" "jane@example.com" "Str0ng!Pass" initialMessage)).2.message
      = afterSuccessMessage ∧
    showError "Please enter your name to continue." afterSuccessMessage
      = { textContent := "Please enter your name to continue.", classList := [],
          contained := true, display := "block" } ∧
    "text-red-500" ∉
      (showError "Please enter your name to continue." afterSuccessMessage).classList ∧
    "text-red-500" ∉ (processDataInput ⟨false⟩ (processDataInput ⟨false⟩
      (domOf "Jane Doe" "jane@example.com" "Str0ng!Pass" initialMessage)).2).2.message.classList := by
  decide

/-- C9, evaluated at the failing input: on a surface whose paragraph is attached and
carries `text-red-500`, `showSucessMessage` sets the text and shows the container but
does not remove the class. -/
theorem showSucessMessage_keeps_error_styling :
    showSucessMessage "Form has successfully been sent." afterErrorMessage
      = { textContent := "Form has successfully been sent.", classList := ["text-red-500"],
          contained := true, display := "block" } ∧
    "text-red-500" ∈
      (showSucessMessage "Form has successfully been sent." afterErrorMessage).classList := by
  decide

/-! ## Rejection, then correction -/

/-- C10: in every document whose name and email pass and whose trimmed password is not
empty but violates the policy, a submit displays the policy message, sets
`aria-invalid="true"` on the password field and leaves the three values unchanged; when
the password value is then replaced by one that satisfies the policy (with or without
the input handler `checkPasswordInput` running on the edit), the next submit clears the
three fields and displays "Form has successfully been sent." without `text-red-500`. -/
theorem reject_then_correct (e1 e2 : Event) (d : Dom) (p : String)
    (hn : (handleTextField d).2 = true) (he : (handleEmailField d).2 = true)
    (hne : trim d.passwordInput.value.toList ≠ [])
    (hbad : passwordRegexMatch (trim d.passwordInput.value.toList) = false)
    (hgood : passwordRegexMatch (trim p.toList) = true) :
    Rejected "Password must be at least 8 characters, include uppercase, lowercase, number, and special character."
      d (processDataInput e1 d).2 ∧
    (processDataInput e1 d).2.passwordInput.ariaInvalid = some "true" ∧
    ∀ d2 : Dom, (d2 = setPasswordValue (processDataInput e1 d).2 p ∨
        d2 = checkPasswordInput (setPasswordValue (processDataInput e1 d).2 p)) →
      (processDataInput e2 d2).2.nameInput.value = "" ∧
      (processDataInput e2 d2).2.emailInput.value = "" ∧
      (processDataInput e2 d2).2.passwordInput.value = "" ∧
      (processDataInput e2 d2).2.message.textContent = "Form has successfully been sent." ∧
      (processDataInput e2 d2).2.message.contained = true ∧
      (processDataInput e2 d2).2.message.display = "block" ∧
      "text-red-500" ∉ (processDataInput e2 d2).2.message.classList := by
  have hp : (handlePasswordField d).2 = false := by
    rw [Bool.eq_false_iff, Ne, handlePasswordField_true_iff, hbad]; simp
  have htxt : (handlePasswordField d).1.message.textContent
      = "Password must be at least 8 characters, include uppercase, lowercase, number, and special character." := by
    simp only [handlePasswordField, hne, if_false, hbad, Bool.not_false, if_true,
      showError_text]
  have hr := submit_password_fails e1 d hn he hp
  refine ⟨?_, ?_, ?_⟩
  · rw [hr, htxt]
    simp [Rejected, showError_text, showError_contained, showError_display, setAriaInvalid]
  · rw [hr]; rfl
  · intro d2 hd2
    have hvals : d2.nameInput.value = d.nameInput.value ∧
        d2.emailInput.value = d.emailInput.value ∧ d2.passwordInput.value = p := by
      rcases hd2 with h | h
      · rw [h, hr]; simp [setPasswordValue, setAriaInvalid]
      · obtain ⟨f1, f2, f3, -⟩ :=
          checkPasswordInput_frame (setPasswordValue (processDataInput e1 d).2 p)
        rw [h, f1, f2, f3, hr]; simp [setPasswordValue, setAriaInvalid]
    have hn2 : (handleTextField d2).2 = true := by
      rw [(handleTextField_congr d d2 hvals.1).1, hn]
    have he2 : (handleEmailField d2).2 = true := by
      rw [(handleEmailField_congr d d2 hvals.2.1).1, he]
    have hp2 : (handlePasswordField d2).2 = true := by
      rw [handlePasswordField_true_iff, hvals.2.2, hgood]
    rw [submit_all_pass e2 d2 hn2 he2 hp2]
    exact ⟨rfl, rfl, rfl, showSucessMessage_after_clear _ _⟩

/-- Witness for C10: "weak123" is rejected, then "Str0ng!Pass" is accepted. -/
theorem reject_then_correct_witness :
    (handleTextField (domOf "Jane Doe" "jane@example.com" "weak123" initialMessage)).2 = true ∧
    passwordRegexMatch (trim "weak123".toList) = false ∧
    passwordRegexMatch (trim "Str0ng!Pass".toList) = true ∧
    (processDataInput ⟨false⟩
      (domOf "Jane Doe" "jane@example.com" "weak123" initialMessage)).2.passwordInput.ariaInvalid
      = some "true" ∧
    (processDataInput ⟨false⟩ (checkPasswordInput (setPasswordValue (processDataInput ⟨false⟩
      (domOf "Jane Doe" "jane@example.com" "weak123" initialMessage)).2
        "Str0ng!Pass"))).2.message.textContent = "Form has successfully been sent." :=
  ⟨by decide, by decide, by decide,
    (reject_then_correct ⟨false⟩ ⟨false⟩
      (domOf "Jane Doe" "jane@example.com" "weak123" initialMessage) "Str0ng!Pass"
      (by decide) (by decide) (by decide) (by decide) (by decide)).2.1,
    ((reject_then_correct ⟨false⟩ ⟨false⟩
      (domOf "Jane Doe" "jane@example.com" "weak123" initialMessage) "Str0ng!Pass"
      (by decide) (by decide) (by decide) (by decide) (by decide)).2.2 _ (Or.inr rfl)).2.2.2.1⟩

/-! ## Live field feedback -/

theorem mem_classAdd_iff (cl : List String) (t x : String) :
    x ∈ classAdd cl t ↔ x ∈ cl ∨ x = t := by
  unfold classAdd
  split
  · constructor
    · intro h; exact Or.inl h
    · rintro (h | rfl)
      · exact h
      · assumption
  · simp

theorem mem_classRemove_iff (cl : List String) (t x : String) :
    x ∈ classRemove cl t ↔ x ∈ cl ∧ x ≠ t := by
  simp [classRemove]

theorem markInvalid_spec (el : InputEl) :
    InvalidStyle (markInvalid el) ∧ (markInvalid el).ariaInvalid = some "true" ∧
    (markInvalid el).value = el.value := by
  refine ⟨⟨?_, ?_⟩, rfl, rfl⟩
  · simp [markInvalid, setAriaInvalid, mem_classAdd_iff]
  · simp [markInvalid, setAriaInvalid, mem_classAdd_iff, mem_classRemove_iff]

theorem markValid_spec (el : InputEl) :
    NeutralStyle (markValid el) ∧ (markValid el).ariaInvalid = some "false" ∧
    (markValid el).value = el.value := by
  refine ⟨⟨?_, ?_⟩, rfl, rfl⟩
  · simp [markValid, setAriaInvalid, mem_classAdd_iff]
  · simp [markValid, setAriaInvalid, mem_classAdd_iff, mem_classRemove_iff]

/-- The input handler of the name field marks it invalid or valid as
`handleTextField` decides. -/
theorem checkNameInput_eq (d : Dom) :
    checkNameInput d = { d with nameInput :=
      (if (handleTextField d).2 = true then markValid d.nameInput else markInvalid d.nameInput) } := by
  unfold checkNameInput handleTextField
  simp only
  split_ifs <;> simp_all

/-- The input handler of the email field marks it invalid or valid as
`handleEmailField` decides. -/
theorem checkEmailInput_eq (d : Dom) :
    checkEmailInput d = { d with emailInput :=
      (if (handleEmailField d).2 = true then markValid d.emailInput else markInvalid d.emailInput) } := by
  unfold checkEmailInput handleEmailField
  simp only
  split_ifs <;> simp_all

/-- The input handler of the password field marks it invalid or valid as
`handlePasswordField` decides. -/
theorem checkPasswordInput_eq (d : Dom) :
    checkPasswordInput d = { d with passwordInput :=
      (if (handlePasswordField d).2 = true then markValid d.passwordInput else markInvalid d.passwordInput) } := by
  unfold checkPasswordInput handlePasswordField
  simp only
  split_ifs <;> simp_all

theorem marked_iff (el : InputEl) (b : Bool) :
    ((InvalidStyle (if b = true then markValid el else markInvalid el) ∧
        (if b = true then markValid el else markInvalid el).ariaInvalid = some "true")
      ↔ b = false) ∧
    ((NeutralStyle (if b = true then markValid el else markInvalid el) ∧
        (if b = true then markValid el else markInvalid el).ariaInvalid = some "false")
      ↔ b = true) := by
  obtain ⟨hi, hia, -⟩ := markInvalid_spec el
  obtain ⟨hv, hva, -⟩ := markValid_spec el
  cases b
  · simp only [Bool.false_eq_true, if_false, hi, hia, and_self, iff_false, not_and, true_iff]
    exact ⟨trivial, fun _ => by decide⟩
  · simp only [if_true, hv, hva, and_self, iff_true, Bool.true_eq_false, iff_false, not_and]
    exact ⟨fun _ => by decide, trivial⟩

/-- C11: for each of the three fields and every value, after the field's input handler
has run the field has the invalid style (`border-red-500` present, `border-gray-400`
absent) and `aria-invalid="true"` exactly when the submit-time validator returns
`false` on that document, and has the neutral style (`border-gray-400` present,
`border-red-500` absent) and `aria-invalid="false"` exactly when it returns `true`. -/
theorem live_feedback_agrees_with_submit_rule (d : Dom) :
    (((InvalidStyle (checkNameInput d).nameInput ∧
          (checkNameInput d).nameInput.ariaInvalid = some "true")
        ↔ (handleTextField d).2 = false) ∧
      ((NeutralStyle (checkNameInput d).nameInput ∧
          (checkNameInput d).nameInput.ariaInvalid = some "false")
        ↔ (handleTextField d).2 = true)) ∧
    (((InvalidStyle (checkEmailInput d).emailInput ∧
          (checkEmailInput d).emailInput.ariaInvalid = some "true")
        ↔ (handleEmailField d).2 = false) ∧
      ((NeutralStyle (checkEmailInput d).emailInput ∧
          (checkEmailInput d).emailInput.ariaInvalid = some "false")
        ↔ (handleEmailField d).2 = true)) ∧
    (((InvalidStyle (checkPasswordInput d).passwordInput ∧
          (checkPasswordInput d).passwordInput.ariaInvalid = some "true")
        ↔ (handlePasswordField d).2 = false) ∧
      ((NeutralStyle (checkPasswordInput d).passwordInput ∧
          (checkPasswordInput d).passwordInput.ariaInvalid = some "false")
        ↔ (handlePasswordField d).2 = true)) := by
  refine ⟨?_, ?_, ?_⟩
  · rw [checkNameInput_eq]; exact marked_iff d.nameInput (handleTextField d).2
  · rw [checkEmailInput_eq]; exact marked_iff d.emailInput (handleEmailField d).2
  · rw [checkPasswordInput_eq]; exact marked_iff d.passwordInput (handlePasswordField d).2

/-- C12: in every document each input handler leaves the message surface (text,
attachment, class list, display) unchanged, leaves the three field values unchanged,
and leaves the other two fields (their classes and `aria-invalid` flags included)
exactly as they were. -/
theorem live_feedback_frame (d : Dom) :
    ((checkNameInput d).message = d.message ∧
      (checkNameInput d).nameInput.value = d.nameInput.value ∧
      (checkNameInput d).emailInput = d.emailInput ∧
      (checkNameInput d).passwordInput = d.passwordInput) ∧
    ((checkEmailInput d).message = d.message ∧
      (checkEmailInput d).emailInput.value = d.emailInput.value ∧
      (checkEmailInput d).nameInput = d.nameInput ∧
      (checkEmailInput d).passwordInput = d.passwordInput) ∧
    ((checkPasswordInput d).message = d.message ∧
      (checkPasswordInput d).passwordInput.value = d.passwordInput.value ∧
      (checkPasswordInput d).nameInput = d.nameInput ∧
      (checkPasswordInput d).emailInput = d.emailInput) := by
  refine ⟨?_, ?_, ?_⟩
  · rw [checkNameInput_eq]
    refine ⟨rfl, ?_, rfl, rfl⟩
    show (if _ then _ else _ : InputEl).value = _
    split <;> rfl
  · rw [checkEmailInput_eq]
    refine ⟨rfl, ?_, rfl, rfl⟩
    show (if _ then _ else _ : InputEl).value = _
    split <;> rfl
  · rw [checkPasswordInput_eq]
    refine ⟨rfl, ?_, rfl, rfl⟩
    show (if _ then _ else _ : InputEl).value = _
    split <;> rfl

/-! ## Field state after an event -/

theorem marked_summary (el : InputEl) (b : Bool) :
    (if b = true then markValid el else markInvalid el).value = el.value ∧
    ("border-red-500" ∈ (if b = true then markValid el else markInvalid el).classList
      ↔ b = false) ∧
    (if b = true then markValid el else markInvalid el).ariaInvalid
      = some (if b = true then "false" else "true") := by
  obtain ⟨⟨hi, -⟩, hia, hiv⟩ := markInvalid_spec el
  obtain ⟨⟨-, hv⟩, hva, hvv⟩ := markValid_spec el
  cases b
  · simp only [Bool.false_eq_true, if_false, hi, hia, hiv, and_self]
  · simp only [if_true, hv, hva, hvv, Bool.true_eq_false, and_self]

/-- What a submit does to the classes and `aria-invalid` flags of the fields. -/
theorem submit_field_state (e : Event) (d : Dom) :
    (processDataInput e d).2.nameInput.classList = d.nameInput.classList ∧
    (processDataInput e d).2.emailInput.classList = d.emailInput.classList ∧
    (processDataInput e d).2.passwordInput.classList = d.passwordInput.classList ∧
    (processDataInput e d).2.nameInput.ariaInvalid
      = some (if (handleTextField d).2 = true then "false" else "true") ∧
    ((handleTextField d).2 = true →
      (processDataInput e d).2.emailInput.ariaInvalid
        = some (if (handleEmailField d).2 = true then "false" else "true")) ∧
    ((handleTextField d).2 = true → (handleEmailField d).2 = true →
      (processDataInput e d).2.passwordInput.ariaInvalid
        = some (if (handlePasswordField d).2 = true then "false" else "true")) := by
  cases hn : (handleTextField d).2
  · rw [submit_name_fails e d hn]
    simp [setAriaInvalid]
  · cases he : (handleEmailField d).2
    · rw [submit_email_fails e d hn he]
      simp [setAriaInvalid]
    · cases hp : (handlePasswordField d).2
      · rw [submit_password_fails e d hn he hp]
        simp [setAriaInvalid]
      · rw [submit_all_pass e d hn he hp]
        simp [setAriaInvalid]

/-- The outcome of a submit in terms of the three validators run on the document. -/
theorem submitOutcome_eq (d : Dom) :
    submitOutcome d =
      if (handleTextField d).2 = false then Outcome.rejectedName
      else if (handleEmailField d).2 = false then Outcome.rejectedEmail
      else if (handlePasswordField d).2 = false then Outcome.rejectedPassword
      else Outcome.accepted := by
  have key : submitOutcome d =
      if (handleTextField d).2 = false then Outcome.rejectedName
      else if (handleEmailField (handleTextField d).1).2 = false then Outcome.rejectedEmail
      else if (handlePasswordField (handleEmailField (handleTextField d).1).1).2 = false then
        Outcome.rejectedPassword
      else Outcome.accepted := by
    unfold submitOutcome
    rcases h1 : handleTextField d with ⟨d1, b1⟩
    cases b1
    · simp
    · rcases h2 : handleEmailField d1 with ⟨d2, b2⟩
      cases b2
      · simp [h2]
      · rcases h3 : handlePasswordField d2 with ⟨d3, b3⟩
        cases b3 <;> simp [h2, h3]
  rw [key]
  cases hn : (handleTextField d).2
  · simp
  · have h1 : (handleTextField d).1 = { d with
        message := clearError d.message, nameInput := setAriaInvalid d.nameInput "false" } := by
      rcases handleTextField_cases d with ⟨h, _⟩ | ⟨_, h⟩
      · rw [hn] at h; cases h
      · exact h
    have hc := handleEmailField_congr d (handleTextField d).1 (by rw [h1])
    rw [hc.1]
    cases he : (handleEmailField d).2
    · simp
    · have he1 : (handleEmailField (handleTextField d).1).2 = true := by rw [hc.1, he]
      have h2 : (handleEmailField (handleTextField d).1).1.passwordInput.value
          = d.passwordInput.value := by
        rcases handleEmailField_cases (handleTextField d).1 with ⟨h, _⟩ | ⟨_, h⟩
        · rw [he1] at h; cases h
        · rw [h, h1]
      rw [(handlePasswordField_congr d _ h2).1]

/-- On a rejected submit no field value changes. -/
theorem submit_rejected_values (e : Event) (d : Dom) (h : submitOutcome d ≠ Outcome.accepted) :
    (processDataInput e d).2.nameInput.value = d.nameInput.value ∧
    (processDataInput e d).2.emailInput.value = d.emailInput.value ∧
    (processDataInput e d).2.passwordInput.value = d.passwordInput.value := by
  rw [submitOutcome_eq] at h
  cases hn : (handleTextField d).2
  · rw [submit_name_fails e d hn]; simp [setAriaInvalid]
  · cases he : (handleEmailField d).2
    · rw [submit_email_fails e d hn he]; simp [setAriaInvalid]
    · cases hp : (handlePasswordField d).2
      · rw [submit_password_fails e d hn he hp]; simp [setAriaInvalid]
      · simp [hn, he, hp] at h

/-- Counterexample to C13 as stated: after three valid edits and a successful submit
the name field was evaluated and cleared; its current value `""` is invalid under the
name rule, yet it carries `aria-invalid="false"` and no `border-red-500`. -/
theorem field_ui_state_counterexample :
    (run emptyDom (validEdits ++ [UiEvent.submit])).nameInput.value = "" ∧
    (handleTextField (run emptyDom (validEdits ++ [UiEvent.submit]))).2 = false ∧
    (run emptyDom (validEdits ++ [UiEvent.submit])).nameInput.ariaInvalid = some "false" ∧
    "border-red-500" ∉ (run emptyDom (validEdits ++ [UiEvent.submit])).nameInput.classList := by
  decide

/-- C13 (amended): in every document reached by a sequence of edits and submits,
(1) after an edit of a field that field holds the new value and both its
`border-red-500` marker and its `aria-invalid` flag equal the invalidity of that
current value under the field's rule; (2) a submit changes no class of any field and
sets `aria-invalid` on each field it evaluates to the invalidity of the value the field
held when the submit ran; (3) after a rejected submit the values are unchanged, so
those flags describe the current values; (4) after a successful submit the three
fields are empty and carry `aria-invalid="false"`. -/
theorem field_ui_state_after_event (d0 : Dom) (evs : List UiEvent) :
    (∀ v : String,
      (step (run d0 evs) (UiEvent.inputName v)).nameInput.value = v ∧
      ("border-red-500" ∈ (step (run d0 evs) (UiEvent.inputName v)).nameInput.classList
        ↔ (handleTextField (step (run d0 evs) (UiEvent.inputName v))).2 = false) ∧
      (step (run d0 evs) (UiEvent.inputName v)).nameInput.ariaInvalid
        = some (if (handleTextField (step (run d0 evs) (UiEvent.inputName v))).2 = true
            then "false" else "true")) ∧
    (∀ v : String,
      (step (run d0 evs) (UiEvent.inputEmail v)).emailInput.value = v ∧
      ("border-red-500" ∈ (step (run d0 evs) (UiEvent.inputEmail v)).emailInput.classList
        ↔ (handleEmailField (step (run d0 evs) (UiEvent.inputEmail v))).2 = false) ∧
      (step (run d0 evs) (UiEvent.inputEmail v)).emailInput.ariaInvalid
        = some (if (handleEmailField (step (run d0 evs) (UiEvent.inputEmail v))).2 = true
            then "false" else "true")) ∧
    (∀ v : String,
      (step (run d0 evs) (UiEvent.inputPassword v)).passwordInput.value = v ∧
      ("border-red-500" ∈ (step (run d0 evs) (UiEvent.inputPassword v)).passwordInput.classList
        ↔ (handlePasswordField (step (run d0 evs) (UiEvent.inputPassword v))).2 = false) ∧
      (step (run d0 evs) (UiEvent.inputPassword v)).passwordInput.ariaInvalid
        = some (if (handlePasswordField (step (run d0 evs) (UiEvent.inputPassword v))).2 = true
            then "false" else "true")) ∧
    ((step (run d0 evs) UiEvent.submit).nameInput.classList = (run d0 evs).nameInput.classList ∧
      (step (run d0 evs) UiEvent.submit).emailInput.classList
        = (run d0 evs).emailInput.classList ∧
      (step (run d0 evs) UiEvent.submit).passwordInput.classList
        = (run d0 evs).passwordInput.classList ∧
      (step (run d0 evs) UiEvent.submit).nameInput.ariaInvalid
        = some (if (handleTextField (run d0 evs)).2 = true then "false" else "true") ∧
      ((handleTextField (run d0 evs)).2 = true →
        (step (run d0 evs) UiEvent.submit).emailInput.ariaInvalid
          = some (if (handleEmailField (run d0 evs)).2 = true then "false" else "true")) ∧
      ((handleTextField (run d0 evs)).2 = true → (handleEmailField (run d0 evs)).2 = true →
        (step (run d0 evs) UiEvent.submit).passwordInput.ariaInvalid
          = some (if (handlePasswordField (run d0 evs)).2 = true then "false" else "true"))) ∧
    (submitOutcome (run d0 evs) ≠ Outcome.accepted →
      (step (run d0 evs) UiEvent.submit).nameInput.value = (run d0 evs).nameInput.value ∧
      (step (run d0 evs) UiEvent.submit).emailInput.value = (run d0 evs).emailInput.value ∧
      (step (run d0 evs) UiEvent.submit).passwordInput.value
        = (run d0 evs).passwordInput.value) ∧
    (submitOutcome (run d0 evs) = Outcome.accepted →
      (step (run d0 evs) UiEvent.submit).nameInput.value = "" ∧
      (step (run d0 evs) UiEvent.submit).emailInput.value = "" ∧
      (step (run d0 evs) UiEvent.submit).passwordInput.value = "" ∧
      (step (run d0 evs) UiEvent.submit).nameInput.ariaInvalid = some "false" ∧
      (step (run d0 evs) UiEvent.submit).emailInput.ariaInvalid = some "false" ∧
      (step (run d0 evs) UiEvent.submit).passwordInput.ariaInvalid = some "false") := by
  generalize run d0 evs = d
  refine ⟨?_, ?_, ?_, ?_, ?_, ?_⟩
  · intro v
    have hc := (handleTextField_congr { d with nameInput := { d.nameInput with value := v } }
      (step d (UiEvent.inputName v)) (by
        simp only [step, checkNameInput_eq]
        exact (marked_summary _ _).1)).1
    rw [hc]
    simp only [step, checkNameInput_eq]
    exact marked_summary _ _
  · intro v
    have hc := (handleEmailField_congr { d with emailInput := { d.emailInput with value := v } }
      (step d (UiEvent.inputEmail v)) (by
        simp only [step, checkEmailInput_eq]
        exact (marked_summary _ _).1)).1
    rw [hc]
    simp only [step, checkEmailInput_eq]
    exact marked_summary _ _
  · intro v
    have hc := (handlePasswordField_congr
      { d with passwordInput := { d.passwordInput with value := v } }
      (step d (UiEvent.inputPassword v)) (by
        simp only [step, checkPasswordInput_eq]
        exact (marked_summary _ _).1)).1
    rw [hc]
    simp only [step, checkPasswordInput_eq]
    exact marked_summary _ _
  · exact submit_field_state _ d
  · intro h
    exact submit_rejected_values _ d h
  · intro h
    rw [submitOutcome_eq] at h
    have hn : (handleTextField d).2 = true := by
      cases hx : (handleTextField d).2
      · simp [hx] at h
      · rfl
    have he : (handleEmailField d).2 = true := by
      cases hx : (handleEmailField d).2
      · simp [hn, hx] at h
      · rfl
    have hp : (handlePasswordField d).2 = true := by
      cases hx : (handlePasswordField d).2
      · simp [hn, he, hx] at h
      · rfl
    simp only [step]
    rw [submit_all_pass _ d hn he hp]
    simp [setAriaInvalid]

/-- Witness for C13 (amended): after a valid name edit and a malformed email edit, a
submit evaluates the email field and flags it; after three valid edits, a submit is
accepted and leaves the cleared name field with `aria-invalid="false"`. -/
theorem field_ui_state_after_event_witness :
    (handleTextField (run emptyDom
      [UiEvent.inputName "Jane Doe", UiEvent.inputEmail "not-an-email"])).2 = true ∧
    (step (run emptyDom [UiEvent.inputName "Jane Doe", UiEvent.inputEmail "not-an-email"])
      UiEvent.submit).emailInput.ariaInvalid = some "true" ∧
    submitOutcome (run emptyDom validEdits) = Outcome.accepted ∧
    (step (run emptyDom validEdits) UiEvent.submit).nameInput.ariaInvalid = some "false" :=
  ⟨by decide,
    ((field_ui_state_after_event emptyDom
      [UiEvent.inputName "Jane Doe", UiEvent.inputEmail "not-an-email"]).2.2.2.1.2.2.2.2.1
        (by decide)).trans (by decide),
    by decide,
    ((field_ui_state_after_event emptyDom validEdits).2.2.2.2.2 (by decide)).2.2.2.1⟩

/-! ## Re-validation and statelessness -/

theorem clearError_idem (m : MessageSurface) : clearError (clearError m) = clearError m := by
  rcases m with ⟨t, cl, _ | _, disp⟩ <;> rfl

theorem clearError_fields (m : MessageSurface) :
    (clearError m).textContent = "" ∧ (clearError m).contained = false ∧
    (clearError m).display = "none" ∧ (clearError m).classList = m.classList := by
  rcases m with ⟨t, cl, _ | _, disp⟩ <;> exact ⟨rfl, rfl, rfl, rfl⟩

theorem handleTextField_valid (d : Dom) (h : (handleTextField d).2 = true) :
    (handleTextField d).1 = { d with
      message := clearError d.message, nameInput := setAriaInvalid d.nameInput "false" } := by
  rcases handleTextField_cases d with ⟨h', _⟩ | ⟨_, h'⟩
  · rw [h] at h'; cases h'
  · exact h'

theorem handleEmailField_valid (d : Dom) (h : (handleEmailField d).2 = true) :
    (handleEmailField d).1 = { d with
      message := clearError d.message, emailInput := setAriaInvalid d.emailInput "false" } := by
  rcases handleEmailField_cases d with ⟨h', _⟩ | ⟨_, h'⟩
  · rw [h] at h'; cases h'
  · exact h'

theorem handlePasswordField_valid (d : Dom) (h : (handlePasswordField d).2 = true) :
    (handlePasswordField d).1 = { d with
      message := clearError d.message,
      passwordInput := setAriaInvalid d.passwordInput "false" } := by
  rcases handlePasswordField_cases d with ⟨h', _⟩ | ⟨_, h'⟩
  · rw [h] at h'; cases h'
  · exact h'

/-- Counterexample to C14 as stated: with an error message on display, re-validating
the valid name "Jane Doe" returns `true` but empties the text and hides the container. -/
theorem revalidate_alters_message_counterexample :
    (handleTextField (domOf "Jane Doe" "jane@example.com" "Str0ng!Pass" afterErrorMessage)).2
      = true ∧
    (domOf "Jane Doe" "jane@example.com" "Str0ng!Pass" afterErrorMessage).message.textContent
      = "Please check your email." ∧
    (domOf "Jane Doe" "jane@example.com" "Str0ng!Pass" afterErrorMessage).message.display
      = "block" ∧
    (handleTextField (domOf "Jane Doe" "jane@example.com" "Str0ng!Pass"
      afterErrorMessage)).1.message.textContent = "" ∧
    (handleTextField (domOf "Jane Doe" "jane@example.com" "Str0ng!Pass"
      afterErrorMessage)).1.message.display = "none" := by
  decide

/-- C14 (amended): for every document and each field whose current value is valid,
re-validating that field returns `true` and clears the message surface (text empty,
paragraph detached, container hidden, class list as before), so the surface is
unaltered exactly when it was already cleared; validating once more returns `true`
again and changes nothing. -/
theorem revalidate_valid_field (d : Dom) :
    ((handleTextField d).2 = true →
      (handleTextField d).1.message = clearError d.message ∧
      (handleTextField d).1.message.textContent = "" ∧
      (handleTextField d).1.message.display = "none" ∧
      (handleTextField d).1.message.classList = d.message.classList ∧
      ((handleTextField d).1.message = d.message ↔ clearError d.message = d.message) ∧
      handleTextField (handleTextField d).1 = ((handleTextField d).1, true)) ∧
    ((handleEmailField d).2 = true →
      (handleEmailField d).1.message = clearError d.message ∧
      (handleEmailField d).1.message.textContent = "" ∧
      (handleEmailField d).1.message.display = "none" ∧
      (handleEmailField d).1.message.classList = d.message.classList ∧
      ((handleEmailField d).1.message = d.message ↔ clearError d.message = d.message) ∧
      handleEmailField (handleEmailField d).1 = ((handleEmailField d).1, true)) ∧
    ((handlePasswordField d).2 = true →
      (handlePasswordField d).1.message = clearError d.message ∧
      (handlePasswordField d).1.message.textContent = "" ∧
      (handlePasswordField d).1.message.display = "none" ∧
      (handlePasswordField d).1.message.classList = d.message.classList ∧
      ((handlePasswordField d).1.message = d.message ↔ clearError d.message = d.message) ∧
      handlePasswordField (handlePasswordField d).1 = ((handlePasswordField d).1, true)) := by
  obtain ⟨ct, -, cd, cc⟩ := clearError_fields d.message
  refine ⟨?_, ?_, ?_⟩
  · intro h
    have h1 := handleTextField_valid d h
    have h2 : (handleTextField (handleTextField d).1).2 = true := by
      rw [(handleTextField_congr d (handleTextField d).1 (by rw [h1]; rfl)).1, h]
    have h3 := handleTextField_valid _ h2
    refine ⟨by rw [h1], by rw [h1]; exact ct, by rw [h1]; exact cd, by rw [h1]; exact cc,
      by rw [h1], ?_⟩
    refine Prod.ext ?_ h2
    rw [h3, h1]
    simp [clearError_idem, setAriaInvalid]
  · intro h
    have h1 := handleEmailField_valid d h
    have h2 : (handleEmailField (handleEmailField d).1).2 = true := by
      rw [(handleEmailField_congr d (handleEmailField d).1 (by rw [h1]; rfl)).1, h]
    have h3 := handleEmailField_valid _ h2
    refine ⟨by rw [h1], by rw [h1]; exact ct, by rw [h1]; exact cd, by rw [h1]; exact cc,
      by rw [h1], ?_⟩
    refine Prod.ext ?_ h2
    rw [h3, h1]
    simp [clearError_idem, setAriaInvalid]
  · intro h
    have h1 := handlePasswordField_valid d h
    have h2 : (handlePasswordField (handlePasswordField d).1).2 = true := by
      rw [(handlePasswordField_congr d (handlePasswordField d).1 (by rw [h1]; rfl)).1, h]
    have h3 := handlePasswordField_valid _ h2
    refine ⟨by rw [h1], by rw [h1]; exact ct, by rw [h1]; exact cd, by rw [h1]; exact cc,
      by rw [h1], ?_⟩
    refine Prod.ext ?_ h2
    rw [h3, h1]
    simp [clearError_idem, setAriaInvalid]

/-- Witness for C14 (amended): the three valid example values, re-validated while an
error message is on display. -/
theorem revalidate_valid_field_witness :
    (handleTextField (domOf "Jane Doe" "jane@example.com" "Str0ng!Pass" afterErrorMessage)).2
      = true ∧
    (handleTextField (domOf "Jane Doe" "jane@example.com" "Str0ng!Pass"
      afterErrorMessage)).1.message.textContent = "" ∧
    (handleEmailField (domOf "Jane Doe" "jane@example.com" "Str0ng!Pass"
      afterErrorMessage)).1.message.display = "none" ∧
    handlePasswordField (handlePasswordField (domOf "Jane Doe" "jane@example.com" "Str0ng!Pass"
      afterErrorMessage)).1
      = ((handlePasswordField (domOf "Jane Doe" "jane@example.com" "Str0ng!Pass"
          afterErrorMessage)).1, true) :=
  ⟨by decide,
    ((revalidate_valid_field (domOf "Jane Doe" "jane@example.com" "Str0ng!Pass"
      afterErrorMessage)).1 (by decide)).2.1,
    ((revalidate_valid_field (domOf "Jane Doe" "jane@example.com" "Str0ng!Pass"
      afterErrorMessage)).2.1 (by decide)).2.2.1,
    ((revalidate_valid_field (domOf "Jane Doe" "jane@example.com" "Str0ng!Pass"
      afterErrorMessage)).2.2 (by decide)).2.2.2.2.2⟩

/-- C15: for any two documents that agree on the three field values (and differ
arbitrarily in message text, attachment, styling, display, field classes and
`aria-invalid` flags), a submit has the same outcome (accepted, or rejected at the same
field), leaves the same message text and the same visibility (paragraph attached,
container display), the same field values, and the same `aria-invalid` value on every
field it evaluated: the name field always, the email field unless the submit ended at
the name, the password field when name and email passed. -/
theorem submit_depends_on_values_only (e e' : Event) (d d' : Dom)
    (hn : d'.nameInput.value = d.nameInput.value)
    (he : d'.emailInput.value = d.emailInput.value)
    (hp : d'.passwordInput.value = d.passwordInput.value) :
    submitOutcome d' = submitOutcome d ∧
    (processDataInput e' d').2.message.textContent = (processDataInput e d).2.message.textContent ∧
    (processDataInput e' d').2.message.display = (processDataInput e d).2.message.display ∧
    (processDataInput e' d').2.message.contained = (processDataInput e d).2.message.contained ∧
    (processDataInput e' d').2.nameInput.value = (processDataInput e d).2.nameInput.value ∧
    (processDataInput e' d').2.emailInput.value = (processDataInput e d).2.emailInput.value ∧
    (processDataInput e' d').2.passwordInput.value
      = (processDataInput e d).2.passwordInput.value ∧
    (processDataInput e' d').2.nameInput.ariaInvalid
      = (processDataInput e d).2.nameInput.ariaInvalid ∧
    (submitOutcome d ≠ Outcome.rejectedName →
      (processDataInput e' d').2.emailInput.ariaInvalid
        = (processDataInput e d).2.emailInput.ariaInvalid) ∧
    (submitOutcome d ≠ Outcome.rejectedName → submitOutcome d ≠ Outcome.rejectedEmail →
      (processDataInput e' d').2.passwordInput.ariaInvalid
        = (processDataInput e d).2.passwordInput.ariaInvalid) := by
  obtain ⟨cn, tn⟩ := handleTextField_congr d d' hn
  obtain ⟨ce, te⟩ := handleEmailField_congr d d' he
  obtain ⟨cp, tp⟩ := handlePasswordField_congr d d' hp
  rw [submitOutcome_eq d', submitOutcome_eq d, cn, ce, cp]
  cases hn1 : (handleTextField d).2
  · rw [submit_name_fails e d hn1, submit_name_fails e' d' (by rw [cn, hn1])]
    simp [showError_text, showError_contained, showError_display, setAriaInvalid, hn, he, hp,
      tn]
  · cases he1 : (handleEmailField d).2
    · rw [submit_email_fails e d hn1 he1,
        submit_email_fails e' d' (by rw [cn, hn1]) (by rw [ce, he1])]
      simp [showError_text, showError_contained, showError_display, setAriaInvalid, hn, he, hp,
        te]
    · cases hp1 : (handlePasswordField d).2
      · rw [submit_password_fails e d hn1 he1 hp1,
          submit_password_fails e' d' (by rw [cn, hn1]) (by rw [ce, he1]) (by rw [cp, hp1])]
        simp [showError_text, showError_contained, showError_display, setAriaInvalid, hn, he,
          hp, tp]
      · rw [submit_all_pass e d hn1 he1 hp1,
          submit_all_pass e' d' (by rw [cn, hn1]) (by rw [ce, he1]) (by rw [cp, hp1])]
        have h1 := showSucessMessage_after_clear "Form has successfully been sent."
          (clearError (clearError (clearError d.message)))
        have h2 := showSucessMessage_after_clear "Form has successfully been sent."
          (clearError (clearError (clearError d'.message)))
        simp [setAriaInvalid, h1.1, h1.2.1, h1.2.2.1, h2.1, h2.2.1, h2.2.2.1]

/-- Witness for C15: the short-circuit values submitted from two documents that differ
in message and flags. -/
theorem submit_depends_on_values_only_witness :
    (domOf "" "not-an-email" "weak" initialMessage).emailInput.value
      = shortCircuitDom.emailInput.value ∧
    submitOutcome (domOf "" "not-an-email" "weak" initialMessage)
      = submitOutcome shortCircuitDom ∧
    (processDataInput ⟨false⟩ (domOf "" "not-an-email" "weak" initialMessage)).2.message.textContent
      = (processDataInput ⟨false⟩ shortCircuitDom).2.message.textContent :=
  ⟨rfl,
    (submit_depends_on_values_only ⟨false⟩ ⟨false⟩ shortCircuitDom
      (domOf "" "not-an-email" "weak" initialMessage) rfl rfl rfl).1,
    (submit_depends_on_values_only ⟨false⟩ ⟨false⟩ shortCircuitDom
      (domOf "" "not-an-email" "weak" initialMessage) rfl rfl rfl).2.1⟩

/-! ## Characters of an accepted password -/

theorem passwordChar_ascii {c : Char} (h : isPasswordChar c = true) : c.toNat < 128 := by
  have hZ : 'Z'.toNat = 90 := by decide
  have hz : 'z'.toNat = 122 := by decide
  have h9 : '9'.toNat = 57 := by decide
  simp only [isPasswordChar, isUpper, isLower, isDigit, isSpecial, Bool.or_eq_true,
    Bool.and_eq_true, decide_eq_true_eq, beq_iff_eq] at h
  rcases h with ((h | h) | h) | h
  · omega
  · omega
  · omega
  · rcases h with (((((h | h) | h) | h) | h) | h) | h <;> rw [h] <;> decide

/-- C16: every trimmed value accepted by `handlePasswordField` consists solely of
ASCII letters, ASCII digits and the characters `@$!%*?&`; equivalently, a trimmed
password holding any other character fails with the policy message, whatever its
length and whichever letters, digits and special characters it also holds. -/
theorem handlePasswordField_accepts_only_policy_characters (d : Dom) :
    ((handlePasswordField d).2 = true →
      ∀ c ∈ trim d.passwordInput.value.toList,
        (isUpper c = true ∨ isLower c = true ∨ isDigit c = true ∨ isSpecial c = true) ∧
        c.toNat < 128) ∧
    ((∃ c ∈ trim d.passwordInput.value.toList,
        isUpper c = false ∧ isLower c = false ∧ isDigit c = false ∧ isSpecial c = false) →
      (handlePasswordField d).2 = false ∧
      Rejected "Password must be at least 8 characters, include uppercase, lowercase, number, and special character."
        d (handlePasswordField d).1 ∧
      (handlePasswordField d).1.passwordInput.ariaInvalid = some "true") := by
  constructor
  · intro h c hc
    have hall := ((passwordRegexMatch_iff _).mp ((handlePasswordField_true_iff d).mp h)).1
    have hpc := hall c hc
    refine ⟨?_, passwordChar_ascii hpc⟩
    simpa only [isPasswordChar, Bool.or_eq_true, or_assoc] using hpc
  · rintro ⟨c, hc, h1, h2, h3, h4⟩
    have hne : trim d.passwordInput.value.toList ≠ [] := by
      intro h; rw [h] at hc; cases hc
    have hre : passwordRegexMatch (trim d.passwordInput.value.toList) = false := by
      rw [Bool.eq_false_iff]
      intro hm
      have hpc := ((passwordRegexMatch_iff _).mp hm).1 c hc
      simp [isPasswordChar, h1, h2, h3, h4] at hpc
    simp only [handlePasswordField, hne, if_false, hre, Bool.not_false, if_true, Rejected,
      showError_text, showError_contained, showError_display, setAriaInvalid, and_self]

/-- Witness for C16: "Str0ng! Pass" has 12 characters, a lowercase letter, an uppercase
letter, a digit and `!`, and an inner space. -/
theorem handlePasswordField_accepts_only_policy_characters_witness :
    8 ≤ (trim "Str0ng! Pass".toList).length ∧
    (handlePasswordField (domOf "Jane Doe" "jane@example.com" "Str0ng! Pass" initialMessage)).2
      = false ∧
    (handlePasswordField (domOf "Jane Doe" "jane@example.com" "Str0ng! Pass"
      initialMessage)).1.message.textContent
      = "Password must be at least 8 characters, include uppercase, lowercase, number, and special character." :=
  ⟨by decide,
    ((handlePasswordField_accepts_only_policy_characters
      (domOf "Jane Doe" "jane@example.com" "Str0ng! Pass" initialMessage)).2
        ⟨' ', by decide, by decide, by decide, by decide, by decide⟩).1,
    ((handlePasswordField_accepts_only_policy_characters
      (domOf "Jane Doe" "jane@example.com" "Str0ng! Pass" initialMessage)).2
        ⟨' ', by decide, by decide, by decide, by decide, by decide⟩).2.1.1⟩

/-! ## Styling of a rejection after a passing validator -/

theorem showError_after_clear (msg : String) (m : MessageSurface) :
    (showError msg (clearError m)).textContent = msg ∧
    (showError msg (clearError m)).contained = true ∧
    (showError msg (clearError m)).display = "block" ∧
    "text-red-500" ∈ (showError msg (clearError m)).classList := by
  have hc := clearError_contained m
  refine ⟨showError_text _ _, showError_contained _ _, showError_display _ _, ?_⟩
  simp only [showError, hc]
  simp [mem_classAdd]

/-- C18: on every rejected submit whose first failing field is email or password, for
every prior message surface, the error text of that field is displayed (paragraph
attached, container shown) and the paragraph carries `text-red-500`. -/
theorem rejection_after_pass_has_error_style (e : Event) (d : Dom) :
    ((handleTextField d).2 = true → (handleEmailField d).2 = false →
      (processDataInput e d).2.message.textContent = (handleEmailField d).1.message.textContent ∧
      (processDataInput e d).2.message.contained = true ∧
      (processDataInput e d).2.message.display = "block" ∧
      "text-red-500" ∈ (processDataInput e d).2.message.classList) ∧
    ((handleTextField d).2 = true → (handleEmailField d).2 = true →
        (handlePasswordField d).2 = false →
      (processDataInput e d).2.message.textContent
        = (handlePasswordField d).1.message.textContent ∧
      (processDataInput e d).2.message.contained = true ∧
      (processDataInput e d).2.message.display = "block" ∧
      "text-red-500" ∈ (processDataInput e d).2.message.classList) := by
  constructor
  · intro hn he
    rw [submit_email_fails e d hn he]
    exact showError_after_clear _ _
  · intro hn he hp
    rw [submit_password_fails e d hn he hp]
    exact showError_after_clear _ _

/-- Witness for C18: an email rejection and a password rejection, both submitted while
a success message without `text-red-500` is on display. -/
theorem rejection_after_pass_has_error_style_witness :
    (handleEmailField (domOf "Jane Doe" "not-an-email" "weak123" afterSuccessMessage)).2
      = false ∧
    "text-red-500" ∈ (processDataInput ⟨false⟩
      (domOf "Jane Doe" "not-an-email" "weak123" afterSuccessMessage)).2.message.classList ∧
    (handlePasswordField (domOf "Jane Doe" "jane@example.com" "weak123" afterSuccessMessage)).2
      = false ∧
    "text-red-500" ∈ (processDataInput ⟨false⟩
      (domOf "Jane Doe" "jane@example.com" "weak123" afterSuccessMessage)).2.message.classList :=
  ⟨by decide,
    ((rejection_after_pass_has_error_style ⟨false⟩
      (domOf "Jane Doe" "not-an-email" "weak123" afterSuccessMessage)).1
        (by decide) (by decide)).2.2.2,
    by decide,
    ((rejection_after_pass_has_error_style ⟨false⟩
      (domOf "Jane Doe" "jane@example.com" "weak123" afterSuccessMessage)).2
        (by decide) (by decide) (by decide)).2.2.2⟩

/-! ## Submitting twice -/

theorem handleTextField_blank (d : Dom) (h : d.nameInput.value = "") :
    (handleTextField d).2 = false ∧
    (handleTextField d).1.message.textContent = "Please enter your name to continue." := by
  have ht : trim d.nameInput.value.toList = [] := by rw [h]; decide
  simp only [handleTextField, ht, if_true, showError_text, and_self]

/-- C19: in every document whose three rules pass, a submit followed at once by a
second submit is rejected by the name rule: the second submit displays "Please enter
your name to continue.", sets `aria-invalid="true"` on the name field, leaves the three
empty values unchanged and leaves the email and password fields exactly as the first
submit left them. -/
theorem second_submit_is_rejected (e1 e2 : Event) (d : Dom)
    (hn : (handleTextField d).2 = true) (he : (handleEmailField d).2 = true)
    (hp : (handlePasswordField d).2 = true) :
    submitOutcome d = Outcome.accepted ∧
    submitOutcome (processDataInput e1 d).2 = Outcome.rejectedName ∧
    (processDataInput e2 (processDataInput e1 d).2).2.message.textContent
      = "Please enter your name to continue." ∧
    (processDataInput e2 (processDataInput e1 d).2).2.message.contained = true ∧
    (processDataInput e2 (processDataInput e1 d).2).2.message.display = "block" ∧
    (processDataInput e2 (processDataInput e1 d).2).2.nameInput.ariaInvalid = some "true" ∧
    (processDataInput e2 (processDataInput e1 d).2).2.nameInput.value = "" ∧
    (processDataInput e2 (processDataInput e1 d).2).2.emailInput.value = "" ∧
    (processDataInput e2 (processDataInput e1 d).2).2.passwordInput.value = "" ∧
    (processDataInput e2 (processDataInput e1 d).2).2.emailInput
      = (processDataInput e1 d).2.emailInput ∧
    (processDataInput e2 (processDataInput e1 d).2).2.passwordInput
      = (processDataInput e1 d).2.passwordInput := by
  have hv : (processDataInput e1 d).2.nameInput.value = "" ∧
      (processDataInput e1 d).2.emailInput.value = "" ∧
      (processDataInput e1 d).2.passwordInput.value = "" := by
    rw [submit_all_pass e1 d hn he hp]
    exact ⟨rfl, rfl, rfl⟩
  obtain ⟨hb, ht⟩ := handleTextField_blank (processDataInput e1 d).2 hv.1
  refine ⟨by rw [submitOutcome_eq]; simp [hn, he, hp], by rw [submitOutcome_eq]; simp [hb], ?_⟩
  rw [submit_name_fails e2 _ hb, ht]
  simp [showError_text, showError_contained, showError_display, setAriaInvalid, hv]

/-- Witness for C19: the end-to-end success example, submitted twice. -/
theorem second_submit_is_rejected_witness :
    (handleTextField (domOf "Jane Doe" "jane@example.com" "Str0ng!Pass" initialMessage)).2
      = true ∧
    (processDataInput ⟨false⟩ (processDataInput ⟨false⟩
      (domOf "Jane Doe" "jane@example.com" "Str0ng!Pass" initialMessage)).2).2.message.textContent
      = "Please enter your name to continue." ∧
    (processDataInput ⟨false⟩ (processDataInput ⟨false⟩
      (domOf "Jane Doe" "jane@example.com" "Str0ng!Pass" initialMessage)).2).2.nameInput.ariaInvalid
      = some "true" :=
  ⟨by decide,
    (second_submit_is_rejected ⟨false⟩ ⟨false⟩
      (domOf "Jane Doe" "jane@example.com" "Str0ng!Pass" initialMessage)
      (by decide) (by decide) (by decide)).2.2.1,
    (second_submit_is_rejected ⟨false⟩ ⟨false⟩
      (domOf "Jane Doe" "jane@example.com" "Str0ng!Pass" initialMessage)
      (by decide) (by decide) (by decide)).2.2.2.2.2.1⟩

/-! ## Shape of an accepted email -/

theorem alnum_not_sep {c : Char} (h : isAlnum c = true) : isLocalSep c = false := by
  cases hs : isLocalSep c
  · rfl
  · exfalso
    simp only [isLocalSep, Bool.or_eq_true, beq_iff_eq] at hs
    rcases hs with (((hs | hs) | hs) | hs) | hs <;> rw [hs] at h <;> exact absurd h (by decide)

theorem alnum_ne_at {c : Char} (h : isAlnum c = true) : c ≠ '@' := by
  intro hc; rw [hc] at h; exact absurd h (by decide)

theorem localSep_ne_at {c : Char} (h : isLocalSep c = true) : c ≠ '@' := by
  intro hc; rw [hc] at h; exact absurd h (by decide)

theorem domainChar_ne_at {c : Char} (h : isDomainChar c = true) : c ≠ '@' := by
  intro hc; rw [hc] at h; exact absurd h (by decide)

theorem letter_domainChar {c : Char} (h : isLetter c = true) : isDomainChar c = true := by
  simp only [isLetter, Bool.or_eq_true] at h
  simp only [isDomainChar, Bool.or_eq_true]
  rcases h with h | h
  · exact Or.inl (Or.inl (Or.inl (Or.inl h)))
  · exact Or.inl (Or.inl (Or.inl (Or.inr h)))

namespace Re

theorem matches_plus_cls_iff (p : Char → Bool) (s : List Char) :
    Matches (plus (cls p)) s ↔ (∀ c ∈ s, p c = true) ∧ 1 ≤ s.length :=
  matches_atLeast_cls_iff p 1 s

theorem matches_opt_cls_iff (p : Char → Bool) (s : List Char) :
    Matches (opt (cls p)) s ↔ s = [] ∨ ∃ c, s = [c] ∧ p c = true := by
  constructor
  · intro h
    cases h with
    | altL h => exact Or.inr ((matches_cls_iff p s).mp h)
    | altR h => cases h; exact Or.inl rfl
  · rintro (rfl | h)
    · exact Matches.altR Matches.eps
    · exact Matches.altL ((matches_cls_iff p s).mpr h)

end Re

theorem chain_of_alnum (l : List Char) (h : ∀ c ∈ l, isAlnum c = true) :
    l.Chain' (fun a b => isAlnum a = true ∨ isAlnum b = true) := by
  induction l with
  | nil => exact List.chain'_nil
  | cons x l ih =>
      refine List.chain'_cons'.mpr ⟨fun y _ => Or.inl (h x (List.mem_cons_self x l)), ?_⟩
      exact ih (fun c hc => h c (List.mem_cons_of_mem x hc))

theorem exists_concat_of_alnum {a : List Char} (hall : ∀ c ∈ a, isAlnum c = true)
    (hlen : 1 ≤ a.length) : ∃ init c, a = init ++ [c] ∧ isAlnum c = true := by
  rcases List.eq_nil_or_concat a with rfl | ⟨init, c, rfl⟩
  · simp at hlen
  · rw [List.concat_eq_append] at hall ⊢
    exact ⟨init, c, rfl, hall c (by simp)⟩

/-- One group `[._%+-]?[a-zA-Z0-9]+` of the local part. -/
theorem local_group {g : List Char}
    (h : Re.Matches (.seq (.opt (.cls isLocalSep)) (.plus (.cls isAlnum))) g) :
    (∀ c ∈ g, isAlnum c = true ∨ isLocalSep c = true) ∧
    (∃ init c, g = init ++ [c] ∧ isAlnum c = true) ∧
    g.Chain' (fun a b => isAlnum a = true ∨ isAlnum b = true) := by
  obtain ⟨o, a, rfl, ho, ha⟩ := (Re.matches_seq_iff _ _ _).mp h
  obtain ⟨hall, hlen⟩ := (Re.matches_plus_cls_iff _ _).mp ha
  obtain ⟨init, c, rfl, hc⟩ := exists_concat_of_alnum hall hlen
  rcases (Re.matches_opt_cls_iff _ _).mp ho with rfl | ⟨x, rfl, hx⟩
  · refine ⟨fun y hy => Or.inl (hall y (by simpa using hy)), ⟨init, c, by simp, hc⟩, ?_⟩
    simpa using chain_of_alnum _ hall
  · refine ⟨?_, ⟨x :: init, c, by simp, hc⟩, ?_⟩
    · intro y hy
      rcases List.mem_append.mp hy with hy | hy
      · rw [List.mem_singleton] at hy
        rw [hy]; exact Or.inr hx
      · exact Or.inl (hall y hy)
    · refine List.chain'_cons'.mpr ⟨fun y hy => Or.inr (hall y (List.mem_of_mem_head? hy)), ?_⟩
      exact chain_of_alnum _ hall

/-- The repeated groups `([._%+-]?[a-zA-Z0-9]+)*` of the local part. -/
theorem local_groups {r : Re} {m : List Char} (h : Re.Matches r m) :
    r = .star (.seq (.opt (.cls isLocalSep)) (.plus (.cls isAlnum))) →
    (∀ c ∈ m, isAlnum c = true ∨ isLocalSep c = true) ∧
    (m = [] ∨ ∃ init c, m = init ++ [c] ∧ isAlnum c = true) ∧
    m.Chain' (fun a b => isAlnum a = true ∨ isAlnum b = true) := by
  induction h with
  | eps => intro hr; cases hr
  | cls _ => intro hr; cases hr
  | seq _ _ _ _ => intro hr; cases hr
  | altL _ _ => intro hr; cases hr
  | altR _ _ => intro hr; cases hr
  | starNil => intro _; exact ⟨fun c hc => (by cases hc), Or.inl rfl, List.chain'_nil⟩
  | @starCons a s1 s2 h1 _ _ ih2 =>
      intro hr
      cases hr
      obtain ⟨g1, ⟨init, c, hg, hc⟩, g3⟩ := local_group h1
      obtain ⟨t1, t2, t3⟩ := ih2 rfl
      refine ⟨?_, ?_, ?_⟩
      · intro y hy
        rcases List.mem_append.mp hy with hy | hy
        · exact g1 y hy
        · exact t1 y hy
      · right
        rcases t2 with rfl | ⟨init2, c2, rfl, hc2⟩
        · exact ⟨init, c, by simp [hg], hc⟩
        · exact ⟨s1 ++ init2, c2, by simp, hc2⟩
      · refine List.Chain'.append g3 t3 ?_
        intro x hx y _
        rw [hg, List.getLast?_concat] at hx
        have hxc : x = c := by simpa using hx.symm
        rw [hxc]; exact Or.inl hc

/-- Every string the email regex accepts splits at its only `@` into a local part and
a domain part of the stated shapes. -/
theorem emailRegex_structure {s : List Char} (h : emailRegex.fullMatch s = true) :
    s.count '@' = 1 ∧
    ∃ loc dom, s = loc ++ '@' :: dom ∧ '@' ∉ loc ∧ '@' ∉ dom ∧ loc ≠ [] ∧
      (∀ c ∈ loc, isAlnum c = true ∨ isLocalSep c = true) ∧
      (∃ c rest, loc = c :: rest ∧ isAlnum c = true) ∧
      (∃ init c, loc = init ++ [c] ∧ isAlnum c = true) ∧
      loc.Chain' (fun a b => ¬ (isLocalSep a = true ∧ isLocalSep b = true)) ∧
      (∀ c ∈ dom, isDomainChar c = true) ∧ EndsWithDottedSuffix dom := by
  rw [Re.fullMatch_iff, emailRegex] at h
  obtain ⟨s1, r1, rfl, h1, h⟩ := (Re.matches_seq_iff _ _ _).mp h
  obtain ⟨s2, r2, rfl, h2, h⟩ := (Re.matches_seq_iff _ _ _).mp h
  obtain ⟨s3, r3, rfl, hat, h⟩ := (Re.matches_seq_iff _ _ _).mp h
  obtain ⟨s4, r4, rfl, h4, h⟩ := (Re.matches_seq_iff _ _ _).mp h
  obtain ⟨s5, s6, rfl, hdot, htld⟩ := (Re.matches_seq_iff _ _ _).mp h
  obtain ⟨a, rfl, ha⟩ := (Re.matches_cls_iff _ _).mp hat
  obtain ⟨b, rfl, hb⟩ := (Re.matches_cls_iff _ _).mp hdot
  obtain ⟨hall6, hlen6⟩ := (Re.matches_atLeast_cls_iff _ _ _).mp htld
  obtain ⟨hall1, hlen1⟩ := (Re.matches_plus_cls_iff _ _).mp h1
  obtain ⟨hall4, -⟩ := (Re.matches_plus_cls_iff _ _).mp h4
  obtain ⟨t1, t2, t3⟩ := local_groups h2 rfl
  have ha' : a = '@' := by simpa using ha
  have hb' : b = '.' := by simpa using hb
  subst ha' hb'
  have hloc : ∀ c ∈ s1 ++ s2, isAlnum c = true ∨ isLocalSep c = true := by
    intro c hc
    rcases List.mem_append.mp hc with hc | hc
    · exact Or.inl (hall1 c hc)
    · exact t1 c hc
  have hdom : ∀ c ∈ s4 ++ '.' :: s6, isDomainChar c = true := by
    intro c hc
    rcases List.mem_append.mp hc with hc | hc
    · exact hall4 c hc
    · rcases List.mem_cons.mp hc with rfl | hc
      · decide
      · exact letter_domainChar (hall6 c hc)
  have hnl : '@' ∉ s1 ++ s2 := by
    intro hc
    rcases hloc _ hc with h | h
    · exact alnum_ne_at h rfl
    · exact localSep_ne_at h rfl
  have hnd : '@' ∉ s4 ++ '.' :: s6 := fun hc => domainChar_ne_at (hdom _ hc) rfl
  have hs : s1 ++ (s2 ++ (['@'] ++ (s4 ++ (['.'] ++ s6)))) = (s1 ++ s2) ++ '@' :: (s4 ++ '.' :: s6) := by
    simp
  rw [hs]
  refine ⟨?_, s1 ++ s2, s4 ++ '.' :: s6, rfl, hnl, hnd, ?_, hloc, ?_, ?_, ?_, hdom,
    ⟨s4, s6, rfl, hlen6, hall6⟩⟩
  · rw [List.count_append, List.count_cons_self, List.count_eq_zero_of_not_mem hnl,
      List.count_eq_zero_of_not_mem hnd]
  · intro hnil
    have : s1 = [] := (List.append_eq_nil.mp hnil).1
    rw [this] at hlen1; simp at hlen1
  · cases s1 with
    | nil => simp at hlen1
    | cons c rest => exact ⟨c, rest ++ s2, rfl, hall1 c (List.mem_cons_self c rest)⟩
  · rcases t2 with rfl | ⟨init2, c2, rfl, hc2⟩
    · obtain ⟨init, c, rfl, hc⟩ := exists_concat_of_alnum hall1 hlen1
      exact ⟨init, c, by simp, hc⟩
    · exact ⟨s1 ++ init2, c2, by simp, hc2⟩
  · have hch : (s1 ++ s2).Chain' (fun a b => isAlnum a = true ∨ isAlnum b = true) := by
      refine List.Chain'.append (chain_of_alnum s1 hall1) t3 ?_
      intro x hx y _
      exact Or.inl (hall1 x (List.mem_of_mem_getLast? hx))
    refine hch.imp ?_
    rintro x y (hx | hy) ⟨sx, sy⟩
    · rw [alnum_not_sep hx] at sx; cases sx
    · rw [alnum_not_sep hy] at sy; cases sy

/-- The email validator returns `true` exactly when the regex matches the trimmed
value. -/
theorem handleEmailField_true_iff (d : Dom) :
    (handleEmailField d).2 = true ↔
      emailRegex.fullMatch (trim d.emailInput.value.toList) = true := by
  unfold handleEmailField
  simp only
  split_ifs with h1 h2
  · rw [h1]; decide
  · simp only [Bool.not_eq_true'] at h2
    rw [h2]; decide
  · simp only [Bool.not_eq_true', Bool.not_eq_false] at h2
    rw [h2]

/-- C17: every trimmed value accepted by `handleEmailField` holds exactly one `@`,
which splits it into a local part and a domain part.  The local part is not empty,
uses only ASCII letters, digits and the separators `. _ % + -`, begins and ends with a
letter or digit and never has two separators adjacent.  The domain part uses only ASCII
letters, digits, `.` and `-`, and ends with a `.` followed by two or more letters. -/
theorem handleEmailField_accepted_shape (d : Dom) (h : (handleEmailField d).2 = true) :
    (trim d.emailInput.value.toList).count '@' = 1 ∧
    ∃ loc dom, trim d.emailInput.value.toList = loc ++ '@' :: dom ∧
      '@' ∉ loc ∧ '@' ∉ dom ∧ loc ≠ [] ∧
      (∀ c ∈ loc, isAlnum c = true ∨ isLocalSep c = true) ∧
      (∃ c rest, loc = c :: rest ∧ isAlnum c = true) ∧
      (∃ init c, loc = init ++ [c] ∧ isAlnum c = true) ∧
      loc.Chain' (fun a b => ¬ (isLocalSep a = true ∧ isLocalSep b = true)) ∧
      (∀ c ∈ dom, isDomainChar c = true) ∧ EndsWithDottedSuffix dom :=
  emailRegex_structure ((handleEmailField_true_iff d).mp h)

/-- Witness for C17: "jane@example.com" is accepted and holds one `@`. -/
theorem handleEmailField_accepted_shape_witness :
    (handleEmailField (domOf "Jane Doe" "jane@example.com" "Str0ng!Pass" initialMessage)).2
      = true ∧
    (trim "jane@example.com".toList).count '@' = 1 :=
  ⟨by decide,
    (handleEmailField_accepted_shape
      (domOf "Jane Doe" "jane@example.com" "Str0ng!Pass" initialMessage) (by decide)).1⟩

end FormValidation
